import Mathlib

/-!
# generator-jhipster: the JDL import pipeline and the Vue needle API

A shallow embedding of

* `generators/import-jdl/index.js`: the phases `validate`, `generateApplications`,
  `generateEntities` and `end`, with the helpers `shouldGenerateApplications`,
  `generateApplicationFiles`, `generateEntityFiles` and `callSubGenerator`;
* `generators/client/needle-api/needle-client-vue.js`: the five request builders.

The generator object is an explicit record threaded through every phase.  Calls that leave
the file (`composeWith`, `shelljs.test`, `chalk`) are fields of an environment record, and
every `composeWith` call is appended to a trace kept in the generator record, whether it
throws or not.
-/

set_option autoImplicit false

namespace ImportJdl

/-! ## JavaScript values and library helpers -/

/-- A JavaScript value as it travels through option objects. -/
inductive Value where
  | undefined
  | bool (b : Bool)
  | str (s : String)
  | strs (l : List String)
  deriving DecidableEq

/-- Truthiness of a JavaScript value, as tested by `!x` and `if (x)`. -/
def Value.truthy : Value → Bool
  | .undefined => false
  | .bool b => b
  | .str s => s != ""
  | .strs _ => true

/-- The lodash helper `_.uniq`: every element once, at the place of its first occurrence. -/
def uniq (xs : List String) : List String :=
  xs.foldl (fun acc x => if x ∈ acc then acc else acc ++ [x]) []

/-- The array method `join`. -/
def join (sep : String) (xs : List String) : String :=
  sep.intercalate xs

/-- The two `chalk` colour functions used by the sources. -/
structure Chalk where
  red : String → String
  yellow : String → String

/-- The colourless `chalk`: both functions return their argument. -/
def Chalk.plain : Chalk := ⟨id, id⟩

/-! ## Data model of the import generator -/

/-- The options object of the import generator (`this.options`). -/
structure Options where
  force : Value
  debug : Value
  skipClient : Value
  skipServer : Value
  skipInstall : Value
  jsonOnly : Value
  ignoreApplication : Value
  skipUiGrouping : Value
  deriving DecidableEq

/-- The object under the key `generator-jhipster` of an exported application. -/
structure ApplicationConfig where
  baseName : String
  skipUserManagement : Value
  jhiPrefix : Value
  deriving DecidableEq

/-- An exported application. -/
structure Application where
  generatorJhipster : ApplicationConfig
  deriving DecidableEq

/-- An exported entity. -/
structure Entity where
  name : String
  skipClient : Value
  skipServer : Value
  noFluentMethod : Value
  skipUserManagement : Value
  deriving DecidableEq

/-- The result of `jdlImporter.import()`, kept in `this.importState`. -/
structure ImportState where
  exportedApplications : List Application
  exportedEntities : List Entity
  deriving DecidableEq

/-- One call of `callSubGenerator`: the path, the generator name and the argument object. -/
structure SubGenCall where
  subgenPath : String
  name : String
  args : List (String × Value)
  deriving DecidableEq

/-- The fields of the generator object that the embedded phases read or write, together with
the traces of its outward calls (`log`, `debug`, `info`, `composeWith`, `rebuildClient`). -/
structure Generator where
  options : Options
  jdlFiles : Option (List String)
  importState : ImportState
  skipClient : Value
  applicationsLeftToGenerate : List String
  entitiesLeftToGenerate : List String
  logged : List String
  debugged : List String
  infos : List String
  composed : List SubGenCall
  rebuildClientCalls : Nat
  deriving DecidableEq

/-- What the generator reaches outside of the file: `composeWith` may throw (the text of the
thrown error is returned), depending on the calls made so far; `isFile key` is
`shelljs.test('-f', key)`. -/
structure Env where
  composeWith : List SubGenCall → SubGenCall → Option String
  isFile : String → Bool
  chalk : Chalk

/-- How a phase ends: the generator as the phase left it and, when the phase stopped in a
fatal error, the message of that error. -/
structure Outcome where
  gen : Generator
  fatal : Option String

/-- Modelled from the spec: the method `error` of `generator-base.js` is not among the
sources.  A fatal phase error ends the phase at once, leaves what was done before as it is
and is rendered with the message it was given (sections 4.4 and 7). -/
def error (g : Generator) (message : String) : Outcome :=
  ⟨g, some message⟩

/-- The generator as the constructor leaves it: both leftover lists empty. -/
def Generator.initial (options : Options) (jdlFiles : Option (List String))
    (importState : ImportState) (skipClient : Value) : Generator :=
  { options := options, jdlFiles := jdlFiles, importState := importState,
    skipClient := skipClient, applicationsLeftToGenerate := [], entitiesLeftToGenerate := [],
    logged := [], debugged := [], infos := [], composed := [], rebuildClientCalls := 0 }

/-! ## The phases of `import-jdl/index.js` -/

/-- The body of the `forEach` of `validate`: the first key that is not a file raises the
error, which leaves the loop. -/
def validateLoop (env : Env) : List String → Option String
  | [] => none
  | key :: rest =>
    if !env.isFile key then
      some (env.chalk.red ("\nCould not find " ++ key ++ ", make sure the path is correct.\n"))
    else validateLoop env rest

/-- The phase `initializing.validate`. -/
def validate (env : Env) (g : Generator) : Outcome :=
  match g.jdlFiles with
  | some files => ⟨g, validateLoop env files⟩
  | none => ⟨g, none⟩

/-- The function `shouldGenerateApplications`. -/
def shouldGenerateApplications (g : Generator) : Bool :=
  !g.options.ignoreApplication.truthy && g.importState.exportedApplications.length != 0

/-- The function `callSubGenerator`: the call is recorded, and `composeWith` may throw. -/
def callSubGenerator (env : Env) (g : Generator) (subgenPath name : String)
    (args : List (String × Value)) : Generator × Option String :=
  ({ g with composed := g.composed ++ [⟨subgenPath, name, args⟩] },
    env.composeWith g.composed ⟨subgenPath, name, args⟩)

/-- The argument object built by `generateApplicationFiles`. -/
def applicationArgs (g : Generator) (application : Application) : List (String × Value) :=
  [("force", g.options.force),
   ("debug", g.options.debug),
   ("skip-client", g.options.skipClient),
   ("skip-server", g.options.skipServer),
   ("skip-install", g.options.skipInstall),
   ("skip-user-management", application.generatorJhipster.skipUserManagement),
   ("jhi-prefix", application.generatorJhipster.jhiPrefix)]

/-- The function `generateApplicationFiles`. -/
def generateApplicationFiles (env : Env) (g : Generator) (application : Application) :
    Generator × Option String :=
  callSubGenerator env g ".." "app" (applicationArgs g application)

/-- The argument object built by `generateEntityFiles`. -/
def entityArgs (g : Generator) (entity : Entity) : List (String × Value) :=
  [("force", g.options.force),
   ("debug", g.options.debug),
   ("regenerate", .bool true),
   ("skip-install", .bool true),
   ("skip-client", entity.skipClient),
   ("skip-server", entity.skipServer),
   ("no-fluent-methods", entity.noFluentMethod),
   ("skip-user-management", entity.skipUserManagement),
   ("skip-ui-grouping", g.options.skipUiGrouping),
   ("arguments", .strs [entity.name])]

/-- The function `generateEntityFiles`. -/
def generateEntityFiles (env : Env) (g : Generator) (entity : Entity) :
    Generator × Option String :=
  callSubGenerator env g ".." "entity" (entityArgs g entity)

/-- The line that `generateApplications` logs before it generates `n` applications. -/
def generatingApplications (n : Nat) : String :=
  "Generating " ++ toString n ++ " " ++ "application" ++ (if n > 1 then "s" else "") ++ "."

/-- The line that `generateEntities` logs before it generates one of `n` entities. -/
def generatingEntities (n : Nat) : String :=
  "Generating " ++ toString n ++ " " ++ "entit" ++ (if n == 1 then "y" else "ies") ++ "."

/-- The phase `writing.generateApplications`. -/
def generateApplications (env : Env) (g : Generator) : Outcome :=
  if !shouldGenerateApplications g || g.importState.exportedApplications.length == 0 then
    ⟨g, none⟩
  else
    let g1 := { g with logged := g.logged ++
      [generatingApplications g.importState.exportedApplications.length] }
    match g.importState.exportedApplications with
    | [application] =>
      match generateApplicationFiles env g1 application with
      | (g2, some thrown) =>
        error g2 ("Error while generating applications from the parsed JDL\n" ++ thrown)
      | (g2, none) => ⟨g2, none⟩
    | applications =>
      ⟨{ g1 with applicationsLeftToGenerate :=
          applications.map (fun application => application.generatorJhipster.baseName) }, none⟩

/-- The `forEach` of `generateEntities` over the entities still to visit; an error thrown by
`generateEntityFiles` leaves the loop. -/
def generateEntitiesLoop (env : Env) : List Entity → Generator → Outcome
  | [], g => ⟨g, none⟩
  | exportedEntity :: rest, g =>
    if g.importState.exportedApplications.length == 0
        || g.importState.exportedApplications.length == 1 then
      let g1 := { g with logged := g.logged ++
        [generatingEntities g.importState.exportedEntities.length] }
      match generateEntityFiles env g1 exportedEntity with
      | (g2, some thrown) => ⟨g2, some thrown⟩
      | (g2, none) => generateEntitiesLoop env rest g2
    else
      generateEntitiesLoop env rest
        { g with entitiesLeftToGenerate := g.entitiesLeftToGenerate ++ [exportedEntity.name] }

/-- The phase `writing.generateEntities`. -/
def generateEntities (env : Env) (g : Generator) : Outcome :=
  if g.importState.exportedEntities.length == 0 then ⟨g, none⟩
  else if g.options.jsonOnly.truthy then
    ⟨{ g with logged := g.logged ++ ["Entity JSON files created. Entity generation skipped."] },
      none⟩
  else
    match generateEntitiesLoop env g.importState.exportedEntities g with
    | ⟨g1, some thrown⟩ =>
      error g1 ("Error while generating entities from the parsed JDL\n" ++ thrown)
    | ⟨g1, none⟩ => ⟨g1, none⟩

/-- The condition under which `end` rebuilds the client. -/
def rebuildsClient (g : Generator) : Bool :=
  !g.options.skipInstall.truthy && !g.skipClient.truthy && !g.options.jsonOnly.truthy
    && !shouldGenerateApplications g

/-- The message `end` sends to `info` for the leftover applications. -/
def applicationsInfo (g : Generator) : String :=
  "Here are the application names to generate manually: " ++ join ", " g.applicationsLeftToGenerate

/-- The message `end` sends to `info` for the leftover entities. -/
def entitiesInfo (g : Generator) : String :=
  "Here are the entity names to generate manually: " ++ join ", " (uniq g.entitiesLeftToGenerate)

/-- The method `end`; a call of `rebuildClient`, a method of `generator-base.js` whose work is
outside of the embedded files, is counted. -/
def «end» (g : Generator) : Generator :=
  let g1 := if rebuildsClient g then
      { g with debugged := g.debugged ++ ["Building client"],
               rebuildClientCalls := g.rebuildClientCalls + 1 }
    else g
  let g2 := if g1.applicationsLeftToGenerate.length != 0 then
      { g1 with infos := g1.infos ++ [applicationsInfo g1] }
    else g1
  if g2.entitiesLeftToGenerate.length != 0 then
    { g2 with infos := g2.infos ++ [entitiesInfo g2] }
  else g2

/-- The two writing phases in their order: `generateEntities` runs on the generator that
`generateApplications` left, unless that phase stopped in a fatal error. -/
def writing (env : Env) (g : Generator) : Outcome :=
  match generateApplications env g with
  | ⟨g1, some message⟩ => ⟨g1, some message⟩
  | ⟨g1, none⟩ => generateEntities env g1

/-- The call that `generateApplicationFiles` makes for an application. -/
def applicationCall (g : Generator) (application : Application) : SubGenCall :=
  ⟨"..", "app", applicationArgs g application⟩

/-- The call that `generateEntityFiles` makes for an entity. -/
def entityCall (g : Generator) (entity : Entity) : SubGenCall :=
  ⟨"..", "entity", entityArgs g entity⟩

/-! ### Sample inputs -/

/-- Options as the command line leaves them when no flag is given. -/
def sampleOptions : Options :=
  ⟨.undefined, .undefined, .undefined, .undefined, .undefined, .bool false, .bool false,
    .bool false⟩

/-- The options of a run with the flag `--ignore-application`. -/
def ignoreApplicationOptions : Options :=
  { sampleOptions with ignoreApplication := .bool true }

/-- The options of a run with the flags `--ignore-application` and `--json-only`. -/
def ignoreApplicationJsonOnlyOptions : Options :=
  { ignoreApplicationOptions with jsonOnly := .bool true }

/-- An environment in which `composeWith` never throws and every path is a file. -/
def sampleEnv : Env := ⟨fun _ _ => none, fun _ => true, Chalk.plain⟩

/-- An environment in which `composeWith` throws `boom` once one call has been made, and in
which the only file is `a.jdl`. -/
def failingEnv : Env :=
  ⟨fun made _ => if made.length = 1 then some "boom" else none, fun key => key == "a.jdl",
    Chalk.plain⟩

/-- An application with the given base name. -/
def sampleApplication (baseName : String) : Application :=
  ⟨⟨baseName, .undefined, .undefined⟩⟩

/-- An entity with the given name. -/
def sampleEntity (name : String) : Entity :=
  ⟨name, .undefined, .undefined, .undefined, .undefined⟩

/-- A fresh generator over the given options and import result. -/
def sampleGenerator (options : Options) (applications : List Application)
    (entities : List Entity) : Generator :=
  Generator.initial options (some ["a.jdl"]) ⟨applications, entities⟩ .undefined


end ImportJdl

namespace NeedleClientVue

open ImportJdl (Chalk)

/-! ## Text helpers -/

/-- The line terminators of JavaScript, after which `^` matches under the flag `m`. -/
def isLineTerminator (c : Char) : Bool :=
  c == '\n' || c == '\r' || c == Char.ofNat 0x2028 || c == Char.ofNat 0x2029

/-- Scanner behind `stripMargin`.  The state `some n` says that the scanner is at the start of
a line and has met `n` blanks that it holds back; `none` says it is further inside the line. -/
def stripMarginFrom : Option Nat → List Char → List Char
  | none, [] => []
  | some n, [] => List.replicate n ' '
  | none, c :: cs => c :: stripMarginFrom (if isLineTerminator c then some 0 else none) cs
  | some n, c :: cs =>
    if c = ' ' then stripMarginFrom (some (n + 1)) cs
    else if c = '|' then stripMarginFrom none cs
    else List.replicate n ' ' ++
      c :: stripMarginFrom (if isLineTerminator c then some 0 else none) cs

/-- Modelled from the spec: the helper `stripMargin` of `generator-base.js` is not among the
sources.  The payloads of section 4.3 are the template literals of the builders without their
margins: on every line the blanks at the start of the line and the pipe that follows them are
removed (`content.replace(/^[ ]*\|/gm, '')`); a line without such a pipe is kept whole. -/
def stripMargin (content : String) : String :=
  String.mk (stripMarginFrom (some 0) content.data)

/-- Whether `search` occurs in the character list, scanning from the left. -/
def includesChars (search : List Char) : List Char → Bool
  | [] => search.isEmpty
  | c :: cs => search.isPrefixOf (c :: cs) || includesChars search cs

/-- The string method `includes`. -/
def includes (s search : String) : Bool :=
  includesChars search.data s.data

/-- The position of the first occurrence of `marker` in the character list. -/
def locateChars (marker : List Char) : List Char → Option Nat
  | [] => if marker.isEmpty then some 0 else none
  | c :: cs =>
    if marker.isPrefixOf (c :: cs) then some 0 else (locateChars marker cs).map (· + 1)

/-- Modelled from the spec: the Marker Registry and Matcher of section 4.1 (`needle-base.js`
and `utils.js` are not among the sources): `locate(fileText, markerId)` is the position of
the first exact, case-sensitive occurrence of the marker, or nothing. -/
def locate (fileText markerId : String) : Option Nat :=
  locateChars markerId.data fileText.data

/-- Modelled from the spec: `checkStringInFile` of `utils.js` is not among the sources; it
tells whether the fragment is present anywhere in the text of the target file. -/
def checkStringInFile (fileText search : String) : Bool :=
  includes fileText search

/-! ## Requests and the file mutator -/

/-- The object built by `generateFileModel`: target file, needle and the block to splice. -/
structure RewriteFileModel where
  file : String
  needle : String
  splicable : String
  deriving DecidableEq

/-- Modelled from the spec: `generateFileModel` of `needle-base.js` is not among the sources;
it packs the target path, the marker and the payload into one request (section 3,
MutationRequest). -/
def generateFileModel (aFile needleTag content : String) : RewriteFileModel :=
  ⟨aFile, needleTag, content⟩

/-- What a builder hands to `addBlockContentToFile`: the request and the warning message. -/
structure NeedleRequest where
  rewriteFileModel : RewriteFileModel
  errorMessage : String
  deriving DecidableEq

/-- On which side of the marker the payload is spliced. -/
inductive Placement where
  | before
  | after
  deriving DecidableEq

/-- Why the file mutator acted or did not act. -/
inductive Reason where
  | applied
  | alreadyApplied
  | markerNotFound
  deriving DecidableEq

/-- The result of the file mutator on the text of the target file. -/
structure Mutation where
  mutated : Bool
  reason : Reason
  text : String
  warning : Option String
  deriving DecidableEq

/-- Modelled from the spec: the File Mutator of section 4.2 (`addBlockContentToFile` of
`needle-base.js` and `rewriteFile` of `utils.js` are not among the sources), on the text of
an existing target file.  A payload already present anywhere in the text means "already
applied"; otherwise the marker is located, a missing marker gives the caller's warning and no
change, and a found marker has the payload spliced right before or right after it. -/
def addBlockContentToFile (placement : Placement) (request : NeedleRequest)
    (fileText : String) : Mutation :=
  if includes fileText request.rewriteFileModel.splicable then
    ⟨false, .alreadyApplied, fileText, none⟩
  else
    match locate fileText request.rewriteFileModel.needle with
    | none => ⟨false, .markerNotFound, fileText, some request.errorMessage⟩
    | some position =>
      let cut := match placement with
        | .before => position
        | .after => position + request.rewriteFileModel.needle.data.length
      ⟨true, .applied,
        String.mk (fileText.data.take cut ++ request.rewriteFileModel.splicable.data
          ++ fileText.data.drop cut), none⟩

/-! ## The builders of `needle-client-vue.js` -/

/-- The fields of the needle object that the builders read: the constant
`CLIENT_MAIN_SRC_DIR` of the base class, `chalk`, and the lodash helper `_.startCase`. -/
structure Needle where
  CLIENT_MAIN_SRC_DIR : String
  chalk : Chalk
  startCase : String → String

/-- The method `addEntityToMenu`, up to the call of `addBlockContentToFile`. -/
def addEntityToMenu (self : Needle) (routerName : String) (enableTranslation : Bool)
    (entityTranslationKeyMenu : String) : NeedleRequest :=
  let errorMessage := self.chalk.yellow "Reference to " ++ routerName ++ " "
    ++ self.chalk.yellow "not added to menu.\n"
  let filePath := self.CLIENT_MAIN_SRC_DIR ++ "/app/core/jhi-navbar/jhi-navbar.vue"
  let menuI18nTitle := if enableTranslation then
      " v-text=\"$t('global.menu.entities." ++ entityTranslationKeyMenu ++ "')\""
    else ""
  let entityEntry := stripMargin (
    "<b-dropdown-item to=\"/" ++ routerName ++ "\">\n"
    ++ "|                        <font-awesome-icon icon=\"asterisk\" />\n"
    ++ "|                        <span" ++ menuI18nTitle ++ ">" ++ self.startCase routerName
    ++ "</span>\n"
    ++ "|                    </b-dropdown-item>")
  ⟨generateFileModel filePath "jhipster-needle-add-entity-to-menu" entityEntry, errorMessage⟩

/-- The template literal of `addEntityToRouterImport`, before `stripMargin`. -/
def routerImportTemplate (entityName fileName folderName : String) (readOnly : Bool) :
    String :=
  if !readOnly then
    "|// prettier-ignore\n"
    ++ "                |const " ++ entityName ++ " = () => import('@/entities/" ++ folderName
    ++ "/" ++ fileName ++ ".vue');\n"
    ++ "                |// prettier-ignore\n"
    ++ "                |const " ++ entityName ++ "Update = () => import('@/entities/"
    ++ folderName ++ "/" ++ fileName ++ "-update.vue');\n"
    ++ "                |// prettier-ignore\n"
    ++ "                |const " ++ entityName ++ "Details = () => import('@/entities/"
    ++ folderName ++ "/" ++ fileName ++ "-details.vue');"
  else
    "|// prettier-ignore\n"
    ++ "                |const " ++ entityName ++ " = () => import('@/entities/" ++ folderName
    ++ "/" ++ fileName ++ ".vue');\n"
    ++ "                |// prettier-ignore\n"
    ++ "                |const " ++ entityName ++ "Details = () => import('@/entities/"
    ++ folderName ++ "/" ++ fileName ++ "-details.vue');"

/-- The method `addEntityToRouterImport`, up to the call of `addBlockContentToFile`. -/
def addEntityToRouterImport (self : Needle) (entityName fileName folderName : String)
    (readOnly : Bool) : NeedleRequest :=
  let errorMessage := self.chalk.yellow "Reference to entity " ++ entityName ++ " "
    ++ self.chalk.yellow "not added to router entities import.\n"
  let filePath := self.CLIENT_MAIN_SRC_DIR ++ "/app/router/entities.ts"
  let entityEntry := stripMargin (routerImportTemplate entityName fileName folderName readOnly)
  ⟨generateFileModel filePath "jhipster-needle-add-entity-to-router-import" entityEntry,
    errorMessage⟩

/-- One route record of the template literal of `addEntityToRouter`; `first` tells whether
the record opens the literal, where its first line has no blanks before the pipe. -/
def routeRecord (first : Bool) (path name component : String) : String :=
  (if first then "" else "                ") ++ "|    \x7b\n"
  ++ "                |      path: '/" ++ path ++ "',\n"
  ++ "                |      name: '" ++ name ++ "',\n"
  ++ "                |      component: " ++ component ++ ",\n"
  ++ "                |      meta: \x7b authorities: [Authority.USER] \x7d\n"
  ++ "                |    \x7d,"

/-- The template literal of `addEntityToRouter`, before `stripMargin`. -/
def routerTemplate (entityName entityFileName : String) (readOnly : Bool) : String :=
  if !readOnly then
    routeRecord true entityFileName entityName entityName ++ "\n"
    ++ routeRecord false (entityFileName ++ "/new") (entityName ++ "Create")
        (entityName ++ "Update") ++ "\n"
    ++ routeRecord false (entityFileName ++ "/:" ++ entityFileName ++ "Id/edit")
        (entityName ++ "Edit") (entityName ++ "Update") ++ "\n"
    ++ routeRecord false (entityFileName ++ "/:" ++ entityFileName ++ "Id/view")
        (entityName ++ "View") (entityName ++ "Details")
  else
    routeRecord true entityFileName entityName entityName ++ "\n"
    ++ routeRecord false (entityFileName ++ "/:" ++ entityFileName ++ "Id/view")
        (entityName ++ "View") (entityName ++ "Details")

/-- The fragment that the duplicate guard of `addEntityToRouter` looks for. -/
def routerPathFragment (entityFileName : String) : String :=
  "path: '/" ++ entityFileName ++ "'"

/-- The warning message that `addEntityToRouter` builds in its first statement. -/
def addEntityToRouterErrorMessage (self : Needle) (entityName : String) : String :=
  self.chalk.yellow "Reference to entity " ++ entityName ++ " "
    ++ self.chalk.yellow "not added to router entities.\n"

/-- The method `addEntityToRouter`, up to the call of `addBlockContentToFile`, on the text of
the router file: no request when the guard finds the path of the entity in the file. -/
def addEntityToRouter (self : Needle) (entityName entityFileName : String) (readOnly : Bool)
    (fileText : String) : Option NeedleRequest :=
  let errorMessage := addEntityToRouterErrorMessage self entityName
  let filePath := self.CLIENT_MAIN_SRC_DIR ++ "/app/router/entities.ts"
  let isSpecificEntityAlreadyGenerated :=
    checkStringInFile fileText (routerPathFragment entityFileName)
  if isSpecificEntityAlreadyGenerated then none
  else
    let entityEntry := stripMargin (routerTemplate entityName entityFileName readOnly)
    some ⟨generateFileModel filePath "jhipster-needle-add-entity-to-router" entityEntry,
      errorMessage⟩

/-- The method `addEntityServiceToMainImport`, up to the call of `addBlockContentToFile`. -/
def addEntityServiceToMainImport (self : Needle)
    (entityClass entityFileName entityFolderName : String) : NeedleRequest :=
  let errorMessage := self.chalk.yellow "Reference to entity " ++ entityClass ++ " "
    ++ self.chalk.yellow "not added to import in main.\n"
  let filePath := self.CLIENT_MAIN_SRC_DIR ++ "/app/main.ts"
  let entityEntry := stripMargin (
    "|import " ++ entityClass ++ "Service from '@/entities/" ++ entityFolderName ++ "/"
    ++ entityFileName ++ ".service';")
  ⟨generateFileModel filePath "jhipster-needle-add-entity-service-to-main-import" entityEntry,
    errorMessage⟩

/-- The method `addEntityServiceToMain`, up to the call of `addBlockContentToFile`. -/
def addEntityServiceToMain (self : Needle) (entityClass entityFileName : String) :
    NeedleRequest :=
  let errorMessage := self.chalk.yellow "Reference to entity " ++ entityClass ++ " "
    ++ self.chalk.yellow "not added to service in main.\n"
  let filePath := self.CLIENT_MAIN_SRC_DIR ++ "/app/main.ts"
  let entityEntry := stripMargin (
    "|    " ++ entityFileName ++ "Service: () => new " ++ entityClass ++ "Service(),")
  ⟨generateFileModel filePath "jhipster-needle-add-entity-service-to-main" entityEntry,
    errorMessage⟩

/-- The text of the router file after one whole call of the method `addEntityToRouter`:
unchanged when the guard returns early, else as the file mutator leaves it. -/
def routerFileAfter (self : Needle) (placement : Placement) (entityName entityFileName : String)
    (readOnly : Bool) (fileText : String) : String :=
  match addEntityToRouter self entityName entityFileName readOnly fileText with
  | none => fileText
  | some request => (addBlockContentToFile placement request fileText).text

/-! ## Measures on payloads -/

/-- Whether a text holds no line terminator. -/
def singleLine (s : String) : Bool :=
  s.data.all (fun c => !isLineTerminator c)

/-- The string method `split` at the line feed, on character lists. -/
def splitLines : List Char → List (List Char)
  | [] => [[]]
  | c :: cs =>
    if c = '\n' then [] :: splitLines cs
    else
      match splitLines cs with
      | [] => [[c]]
      | line :: lines => (c :: line) :: lines

/-- Whether a line is a lazy-loaded import binding, `const X = () => import(...)`. -/
def isImportBinding (line : List Char) : Bool :=
  "const ".data.isPrefixOf line && includesChars " = () => import(".data line

/-- The number of lazy-loaded import bindings among the lines of a payload. -/
def countImportBindings (payload : String) : Nat :=
  ((splitLines payload.data).filter isImportBinding).length

/-- The key of a factory registration `key: () => ...`: the text before the first colon,
without the blanks that indent the line. -/
def registrationKey (payload : String) : List Char :=
  (payload.data.dropWhile (fun c => c == ' ')).takeWhile (fun c => c != ':')

/-- A lazy-loaded import binding as a line of text: the constant `name` bound to the import
of the view `fileName ++ suffix` in the folder of the entity. -/
def importBinding (name folderName fileName suffix : String) : String :=
  "const " ++ name ++ " = () => import('@/entities/" ++ folderName ++ "/" ++ fileName ++ suffix
    ++ "');"

/-- A needle object without colours, whose `startCase` returns its argument. -/
def plainNeedle : Needle := ⟨"src/main/webapp", ImportJdl.Chalk.plain, id⟩

end NeedleClientVue

namespace ImportJdl

/-! ## Facts about the library helpers -/

theorem uniq_foldl_of_nodup (xs acc : List String) (h : (acc ++ xs).Nodup) :
    xs.foldl (fun acc x => if x ∈ acc then acc else acc ++ [x]) acc = acc ++ xs := by
  induction xs generalizing acc with
  | nil => simp
  | cons x xs ih =>
    have hx : x ∉ acc := by
      intro hmem
      have := List.nodup_append.mp h
      exact this.2.2 hmem (List.mem_cons_self x xs)
    simp only [List.foldl_cons, hx, if_false]
    rw [ih (acc ++ [x]) (by simpa using h)]
    simp

theorem uniq_of_nodup (xs : List String) (h : xs.Nodup) : uniq xs = xs := by
  have := uniq_foldl_of_nodup xs [] (by simpa using h)
  simpa [uniq] using this

/-! ## validate -/

theorem validateLoop_isSome (env : Env) (files : List String) :
    (validateLoop env files).isSome = true ↔ ∃ key ∈ files, env.isFile key = false := by
  induction files with
  | nil => simp [validateLoop]
  | cons key rest ih =>
    unfold validateLoop
    cases hk : env.isFile key <;> simp [hk, ih]

theorem validateLoop_first (env : Env) (pre : List String) (key : String) (post : List String)
    (hpre : ∀ p ∈ pre, env.isFile p = true) (hkey : env.isFile key = false) :
    validateLoop env (pre ++ key :: post) =
      some (env.chalk.red ("\nCould not find " ++ key ++ ", make sure the path is correct.\n")) := by
  induction pre with
  | nil => simp [validateLoop, hkey]
  | cons p pre ih =>
    have hp : env.isFile p = true := hpre p (List.mem_cons_self p pre)
    have := ih (fun q hq => hpre q (List.mem_cons_of_mem p hq))
    simpa [validateLoop, hp] using this

/-! ## generateApplications -/

theorem generateApplications_ignored (env : Env) (g : Generator)
    (h : g.options.ignoreApplication.truthy = true) :
    generateApplications env g = ⟨g, none⟩ := by
  simp [generateApplications, shouldGenerateApplications, h]

theorem generateApplications_many (env : Env) (g : Generator)
    (hlen : 2 ≤ g.importState.exportedApplications.length)
    (h : g.options.ignoreApplication.truthy = false) :
    generateApplications env g =
      ⟨{ g with
          logged := g.logged ++ [generatingApplications g.importState.exportedApplications.length],
          applicationsLeftToGenerate := g.importState.exportedApplications.map
            (fun application => application.generatorJhipster.baseName) }, none⟩ := by
  rcases happs : g.importState.exportedApplications with _ | ⟨a, _ | ⟨b, rest⟩⟩
  · simp [happs] at hlen
  · simp [happs] at hlen
  · simp [generateApplications, shouldGenerateApplications, h, happs]

theorem generateApplications_one (env : Env) (g : Generator) (application : Application)
    (happs : g.importState.exportedApplications = [application])
    (h : g.options.ignoreApplication.truthy = false) :
    generateApplications env g =
      ⟨{ g with logged := g.logged ++ [generatingApplications 1],
                composed := g.composed ++ [applicationCall g application] },
        (env.composeWith g.composed (applicationCall g application)).map
          (fun thrown => "Error while generating applications from the parsed JDL\n" ++ thrown)⟩ := by
  simp only [generateApplications, shouldGenerateApplications, h, happs, generateApplicationFiles,
    callSubGenerator, applicationCall, applicationArgs, error]
  cases hc : env.composeWith g.composed
    ⟨"..", "app", [("force", g.options.force), ("debug", g.options.debug),
      ("skip-client", g.options.skipClient), ("skip-server", g.options.skipServer),
      ("skip-install", g.options.skipInstall),
      ("skip-user-management", application.generatorJhipster.skipUserManagement),
      ("jhi-prefix", application.generatorJhipster.jhiPrefix)]⟩ <;> simp [hc]

/-! ## generateEntities -/

theorem entityCall_congr (g g1 : Generator) (h : g1.options = g.options) (entity : Entity) :
    entityCall g1 entity = entityCall g entity := by
  simp [entityCall, entityArgs, h]

theorem generateEntitiesLoop_deferred (env : Env) (entities : List Entity) (g : Generator)
    (h : 1 < g.importState.exportedApplications.length) :
    generateEntitiesLoop env entities g =
      ⟨{ g with entitiesLeftToGenerate :=
          g.entitiesLeftToGenerate ++ entities.map (fun entity => entity.name) }, none⟩ := by
  induction entities generalizing g with
  | nil => simp [generateEntitiesLoop]
  | cons entity rest ih =>
    have h0 : g.importState.exportedApplications.length ≠ 0 := by omega
    have h1 : g.importState.exportedApplications.length ≠ 1 := by omega
    have hcond : (g.importState.exportedApplications.length == 0
        || g.importState.exportedApplications.length == 1) = false := by
      simp [h0, h1]
    simp only [generateEntitiesLoop, hcond, Bool.false_eq_true, if_false]
    rw [ih { g with entitiesLeftToGenerate := g.entitiesLeftToGenerate ++ [entity.name] } h]
    simp

theorem generateEntitiesLoop_generated (env : Env) (entities : List Entity) (g : Generator)
    (h : g.importState.exportedApplications.length ≤ 1) :
    ∃ m, m ≤ entities.length ∧
      (generateEntitiesLoop env entities g).gen =
        { g with
          logged := g.logged
            ++ List.replicate m (generatingEntities g.importState.exportedEntities.length),
          composed := g.composed ++ (entities.take m).map (entityCall g) } ∧
      (∀ i entity, i + 1 < m → entities[i]? = some entity →
        env.composeWith (g.composed ++ (entities.take i).map (entityCall g))
          (entityCall g entity) = none) ∧
      ((generateEntitiesLoop env entities g).fatal = none →
        m = entities.length ∧ ∀ i entity, entities[i]? = some entity →
          env.composeWith (g.composed ++ (entities.take i).map (entityCall g))
            (entityCall g entity) = none) ∧
      (∀ thrown, (generateEntitiesLoop env entities g).fatal = some thrown →
        ∃ k entity, m = k + 1 ∧ entities[k]? = some entity ∧
          env.composeWith (g.composed ++ (entities.take k).map (entityCall g))
            (entityCall g entity) = some thrown) := by
  induction entities generalizing g with
  | nil =>
    refine ⟨0, le_refl _, ?_, ?_, ?_, ?_⟩ <;> simp [generateEntitiesLoop]
  | cons entity rest ih =>
    have hcond : (g.importState.exportedApplications.length == 0
        || g.importState.exportedApplications.length == 1) = true := by
      rcases Nat.le_one_iff_eq_zero_or_eq_one.mp h with h0 | h1
      · simp [h0]
      · simp [h1]
    cases hc : env.composeWith g.composed (entityCall g entity) with
    | some thrown =>
      have hloop : generateEntitiesLoop env (entity :: rest) g =
          ⟨{ g with
              logged := g.logged ++ [generatingEntities g.importState.exportedEntities.length],
              composed := g.composed ++ [entityCall g entity] }, some thrown⟩ := by
        have hc2 := hc
        simp only [entityCall, entityArgs] at hc2
        simp [generateEntitiesLoop, hcond, generateEntityFiles, callSubGenerator, hc2,
          entityCall, entityArgs]
      refine ⟨1, by simp, ?_, ?_, ?_, ?_⟩
      · rw [hloop]; simp
      · intro i e hi; omega
      · rw [hloop]; simp
      · intro err herr
        rw [hloop] at herr
        simp only [Option.some.injEq] at herr
        exact ⟨0, entity, rfl, by simp, by simpa [herr] using hc⟩
    | none =>
      let g2 : Generator := { g with
        logged := g.logged ++ [generatingEntities g.importState.exportedEntities.length],
        composed := g.composed ++ [entityCall g entity] }
      have hloop : generateEntitiesLoop env (entity :: rest) g =
          generateEntitiesLoop env rest g2 := by
        have hc2 := hc
        simp only [entityCall, entityArgs] at hc2
        simp [generateEntitiesLoop, hcond, generateEntityFiles, callSubGenerator, hc2,
          entityCall, entityArgs, g2]
      have hcall : ∀ e, entityCall g2 e = entityCall g e := fun e =>
        entityCall_congr g g2 rfl e
      obtain ⟨m, hm, hgen, hbefore, hnone, hsome⟩ := ih g2 h
      refine ⟨m + 1, by simpa using hm, ?_, ?_, ?_, ?_⟩
      · rw [hloop, hgen]
        simp [g2, hcall, List.replicate_succ, entityCall_congr]
        rfl
      · intro i e hi he
        cases i with
        | zero =>
          simp only [List.getElem?_cons_zero, Option.some.injEq] at he
          subst he
          simpa using hc
        | succ j =>
          have := hbefore j e (by omega) (by simpa using he)
          simpa [g2, hcall, funext hcall] using this
      · intro hfatal
        rw [hloop] at hfatal
        obtain ⟨hlen, hall⟩ := hnone hfatal
        refine ⟨by simp [hlen], ?_⟩
        intro i e he
        cases i with
        | zero =>
          simp only [List.getElem?_cons_zero, Option.some.injEq] at he
          subst he
          simpa using hc
        | succ j =>
          have := hall j e (by simpa using he)
          simpa [g2, hcall, funext hcall] using this
      · intro err herr
        rw [hloop] at herr
        obtain ⟨k, e, hk, he, hfail⟩ := hsome err herr
        refine ⟨k + 1, e, by omega, by simpa using he, ?_⟩
        simpa [g2, hcall, funext hcall] using hfail

theorem generateEntitiesLoop_single (env : Env) (entity : Entity) (g : Generator)
    (h : g.importState.exportedApplications.length ≤ 1) :
    (generateEntitiesLoop env [entity] g).gen =
      { g with
        logged := g.logged ++ [generatingEntities g.importState.exportedEntities.length],
        composed := g.composed ++ [entityCall g entity] } := by
  obtain ⟨m, hm, hgen, -, hnone, hsome⟩ := generateEntitiesLoop_generated env [entity] g h
  have hm1 : m = 1 := by
    cases hf : (generateEntitiesLoop env [entity] g).fatal with
    | none => simpa using (hnone hf).1
    | some thrown =>
      obtain ⟨k, e, hk, -, -⟩ := hsome thrown hf
      simp only [List.length_singleton] at hm
      omega
  rw [hgen, hm1]
  simp

theorem generateEntities_eq_loop (env : Env) (g : Generator)
    (hne : g.importState.exportedEntities ≠ []) (hjson : g.options.jsonOnly.truthy = false) :
    generateEntities env g =
      ⟨(generateEntitiesLoop env g.importState.exportedEntities g).gen,
        (generateEntitiesLoop env g.importState.exportedEntities g).fatal.map
          (fun thrown => "Error while generating entities from the parsed JDL\n" ++ thrown)⟩ := by
  have hlen : (g.importState.exportedEntities.length == 0) = false := by
    cases hents : g.importState.exportedEntities with
    | nil => exact absurd hents hne
    | cons e es => simp
  simp only [generateEntities, hlen, hjson, Bool.false_eq_true, if_false]
  rcases generateEntitiesLoop env g.importState.exportedEntities g with ⟨g1, _ | thrown⟩ <;> rfl

theorem generateEntities_gen_few (env : Env) (g : Generator)
    (happs : g.importState.exportedApplications.length ≤ 1) :
    ∃ logged composed,
      (generateEntities env g).gen = { g with logged := logged, composed := composed } := by
  by_cases hne : g.importState.exportedEntities = []
  · exact ⟨g.logged, g.composed, by simp [generateEntities, hne]⟩
  · cases hjson : g.options.jsonOnly.truthy with
    | true =>
      have hlen : (g.importState.exportedEntities.length == 0) = false := by
        cases hents : g.importState.exportedEntities with
        | nil => exact absurd hents hne
        | cons e es => simp
      exact ⟨g.logged ++ ["Entity JSON files created. Entity generation skipped."], g.composed,
        by simp [generateEntities, hlen, hjson]⟩
    | false =>
      obtain ⟨m, -, hgen, -⟩ :=
        generateEntitiesLoop_generated env g.importState.exportedEntities g happs
      exact ⟨_, _, by rw [generateEntities_eq_loop env g hne hjson]; exact hgen⟩

theorem writing_without_application (env : Env) (g : Generator)
    (happs : g.importState.exportedApplications = []) :
    writing env g = generateEntities env g := by
  simp [writing, generateApplications, shouldGenerateApplications, happs]

/-! ## end -/

theorem end_infos (g : Generator) :
    («end» g).infos = g.infos
      ++ (if g.applicationsLeftToGenerate.length != 0 then [applicationsInfo g] else [])
      ++ (if g.entitiesLeftToGenerate.length != 0 then [entitiesInfo g] else []) := by
  unfold «end»
  by_cases hr : rebuildsClient g = true <;>
  by_cases ha : (g.applicationsLeftToGenerate.length != 0) = true <;>
  by_cases he : (g.entitiesLeftToGenerate.length != 0) = true <;>
  simp [hr, ha, he, applicationsInfo, entitiesInfo]

theorem end_rebuildClientCalls (g : Generator) :
    («end» g).rebuildClientCalls = g.rebuildClientCalls + (if rebuildsClient g then 1 else 0) := by
  unfold «end»
  by_cases hr : rebuildsClient g = true <;>
  by_cases ha : (g.applicationsLeftToGenerate.length != 0) = true <;>
  by_cases he : (g.entitiesLeftToGenerate.length != 0) = true <;>
  simp [hr, ha, he]

/-! ## The claims on the import pipeline -/

/-- C1, as stated, fails: with `--ignore-application` two exported applications leave
`applicationsLeftToGenerate` empty instead of holding the two base names, and without the
flag two applications of the same base name are recorded twice, where the deduplicated list
has one entry. -/
theorem generateApplications_leftover_counterexample :
    (generateApplications sampleEnv (sampleGenerator ignoreApplicationOptions
        [sampleApplication "shop", sampleApplication "blog"] [])).gen.applicationsLeftToGenerate
      = []
    ∧ uniq ["shop", "blog"] = ["shop", "blog"]
    ∧ (generateApplications sampleEnv (sampleGenerator sampleOptions
        [sampleApplication "shop", sampleApplication "shop"] [])).gen.applicationsLeftToGenerate
      = ["shop", "shop"]
    ∧ uniq ["shop", "shop"] = ["shop"] := by
  decide

/-- C1 (amended): with two or more exported applications `generateApplications` makes no
sub-generator call and ends without error.  With `ignore-application` set it leaves
`applicationsLeftToGenerate` as it was.  Otherwise the list becomes the base names of the
applications in list order, one entry per application; `end` reports exactly that list,
joined by a comma and a blank, and when the base names are pairwise distinct it is the
deduplicated first-seen list. -/
theorem generateApplications_defers_many_applications (env : Env) (g : Generator)
    (hlen : 2 ≤ g.importState.exportedApplications.length) :
    (generateApplications env g).gen.composed = g.composed
    ∧ (generateApplications env g).fatal = none
    ∧ (g.options.ignoreApplication.truthy = true →
        (generateApplications env g).gen.applicationsLeftToGenerate
          = g.applicationsLeftToGenerate)
    ∧ (g.options.ignoreApplication.truthy = false →
        (generateApplications env g).gen.applicationsLeftToGenerate
          = g.importState.exportedApplications.map
              (fun application => application.generatorJhipster.baseName)
        ∧ ("Here are the application names to generate manually: "
            ++ join ", " (g.importState.exportedApplications.map
              (fun application => application.generatorJhipster.baseName)))
          ∈ («end» (generateApplications env g).gen).infos
        ∧ ((g.importState.exportedApplications.map
              (fun application => application.generatorJhipster.baseName)).Nodup →
            (generateApplications env g).gen.applicationsLeftToGenerate
              = uniq (g.importState.exportedApplications.map
                  (fun application => application.generatorJhipster.baseName)))) := by
  cases hignore : g.options.ignoreApplication.truthy with
  | true =>
    rw [generateApplications_ignored env g hignore]
    simp
  | false =>
    rw [generateApplications_many env g hlen hignore]
    refine ⟨rfl, rfl, by simp, fun _ => ⟨rfl, ?_, ?_⟩⟩
    · rw [end_infos]
      have hne : ((g.importState.exportedApplications.map
          (fun application => application.generatorJhipster.baseName)).length != 0) = true := by
        simp only [List.length_map, bne_iff_ne, ne_eq]
        omega
      simp only [hne, if_true]
      exact List.mem_append_left _ (List.mem_append_right _ (by simp [applicationsInfo]))
    · intro hnodup
      exact (uniq_of_nodup _ hnodup).symm

/-- Witness of C1 (amended) for the applications `shop` and `blog`. -/
theorem generateApplications_defers_many_applications_witness :
    2 ≤ (sampleGenerator sampleOptions [sampleApplication "shop", sampleApplication "blog"]
        []).importState.exportedApplications.length
    ∧ (generateApplications sampleEnv (sampleGenerator sampleOptions
        [sampleApplication "shop", sampleApplication "blog"] [])).gen.applicationsLeftToGenerate
      = ["shop", "blog"] :=
  ⟨by decide,
    ((generateApplications_defers_many_applications sampleEnv
      (sampleGenerator sampleOptions [sampleApplication "shop", sampleApplication "blog"] [])
      (by decide)).2.2.2 rfl).1⟩

/-- C2: with exactly one exported application and one exported entity, application
generation not disabled, the run not json-only and both leftover lists empty, the two writing
phases, `generateEntities` after a `generateApplications` whose `composeWith` call returned,
call the sub-generator exactly twice, first `app` and then `entity`, and both leftover lists
are still empty. -/
theorem writing_one_application_one_entity (env : Env) (g : Generator)
    (application : Application) (entity : Entity)
    (happs : g.importState.exportedApplications = [application])
    (hents : g.importState.exportedEntities = [entity])
    (hignore : g.options.ignoreApplication.truthy = false)
    (hjson : g.options.jsonOnly.truthy = false)
    (hla : g.applicationsLeftToGenerate = []) (hle : g.entitiesLeftToGenerate = [])
    (hok : env.composeWith g.composed (applicationCall g application) = none) :
    (writing env g).gen.composed
        = g.composed ++ [applicationCall g application, entityCall g entity]
    ∧ (applicationCall g application).name = "app"
    ∧ (entityCall g entity).name = "entity"
    ∧ (writing env g).gen.applicationsLeftToGenerate = []
    ∧ (writing env g).gen.entitiesLeftToGenerate = [] := by
  obtain ⟨g1, hg1⟩ : ∃ g1 : Generator, g1 =
      { g with logged := g.logged ++ [generatingApplications 1],
               composed := g.composed ++ [applicationCall g application] } := ⟨_, rfl⟩
  have hw : writing env g = generateEntities env g1 := by
    simp [writing, generateApplications_one env g application happs hignore, hok, hg1]
  have hents1 : g1.importState.exportedEntities = [entity] := by rw [hg1]; exact hents
  have hjson1 : g1.options.jsonOnly.truthy = false := by rw [hg1]; exact hjson
  have happs1 : g1.importState.exportedApplications.length ≤ 1 := by
    rw [hg1]; simp [happs]
  have hcall : entityCall g1 entity = entityCall g entity :=
    entityCall_congr g g1 (by rw [hg1]) entity
  rw [hw, generateEntities_eq_loop env g1 (by simp [hents1]) hjson1, hents1]
  simp only [generateEntitiesLoop_single env entity g1 happs1, hcall]
  refine ⟨?_, rfl, rfl, ?_, ?_⟩
  · rw [hg1]; simp
  · rw [hg1]; exact hla
  · rw [hg1]; exact hle

/-- Witness of C2 for the application `shop` and the entity `Foo`. -/
theorem writing_one_application_one_entity_witness :
    (writing sampleEnv (sampleGenerator sampleOptions [sampleApplication "shop"]
        [sampleEntity "Foo"])).gen.composed.map (fun call => call.name) = ["app", "entity"] := by
  have h := (writing_one_application_one_entity sampleEnv
    (sampleGenerator sampleOptions [sampleApplication "shop"] [sampleEntity "Foo"])
    (sampleApplication "shop") (sampleEntity "Foo") rfl rfl rfl rfl rfl rfl rfl).1
  rw [h]
  rfl

/-- C3: for a non-empty list of exported entities in a run that is not json-only.  With at
most one exported application `generateEntities` leaves `entitiesLeftToGenerate` unchanged
and calls the `entity` sub-generator for the entities in list order, one call per entity when
it ends without error, which it does whenever `composeWith` does not throw; the call for an
entity carries the arguments `[entity.name]`, the four options taken from the entity and the
`skip-ui-grouping` of the run.  With more than one exported application it makes no call,
ends without error and appends every entity name in list order to `entitiesLeftToGenerate`. -/
theorem generateEntities_generates_or_defers (env : Env) (g : Generator)
    (hne : g.importState.exportedEntities ≠ []) (hjson : g.options.jsonOnly.truthy = false) :
    (g.importState.exportedApplications.length ≤ 1 →
      (generateEntities env g).gen.entitiesLeftToGenerate = g.entitiesLeftToGenerate
      ∧ (∃ m, m ≤ g.importState.exportedEntities.length
          ∧ (generateEntities env g).gen.composed
            = g.composed ++ (g.importState.exportedEntities.take m).map (entityCall g))
      ∧ ((generateEntities env g).fatal = none →
          (generateEntities env g).gen.composed
            = g.composed ++ g.importState.exportedEntities.map (entityCall g))
      ∧ ((∀ made call, env.composeWith made call = none) →
          (generateEntities env g).fatal = none))
    ∧ (∀ entity, entityCall g entity = ⟨"..", "entity",
        [("force", g.options.force), ("debug", g.options.debug), ("regenerate", .bool true),
         ("skip-install", .bool true), ("skip-client", entity.skipClient),
         ("skip-server", entity.skipServer), ("no-fluent-methods", entity.noFluentMethod),
         ("skip-user-management", entity.skipUserManagement),
         ("skip-ui-grouping", g.options.skipUiGrouping),
         ("arguments", .strs [entity.name])]⟩)
    ∧ (1 < g.importState.exportedApplications.length →
      (generateEntities env g).gen.composed = g.composed
      ∧ (generateEntities env g).fatal = none
      ∧ (generateEntities env g).gen.entitiesLeftToGenerate
        = g.entitiesLeftToGenerate
          ++ g.importState.exportedEntities.map (fun entity => entity.name)) := by
  rw [generateEntities_eq_loop env g hne hjson]
  refine ⟨fun happs => ?_, fun _ => rfl, fun happs => ?_⟩
  · obtain ⟨m, hm, hgen, -, hnone, hsome⟩ :=
      generateEntitiesLoop_generated env g.importState.exportedEntities g happs
    refine ⟨by simp [hgen], ⟨m, hm, by simp [hgen]⟩, ?_, ?_⟩
    · intro hfatal
      have hfatal1 : (generateEntitiesLoop env g.importState.exportedEntities g).fatal = none := by
        simpa using hfatal
      have hmlen := (hnone hfatal1).1
      simp [hgen, hmlen]
    · intro hnever
      cases hf : (generateEntitiesLoop env g.importState.exportedEntities g).fatal with
      | none => simp
      | some thrown =>
        obtain ⟨k, entity, -, -, hfail⟩ := hsome thrown hf
        rw [hnever] at hfail
        exact absurd hfail (by simp)
  · rw [generateEntitiesLoop_deferred env _ g happs]
    simp

/-- Witness of C3 for the entities `Foo` and `Bar` without an exported application. -/
theorem generateEntities_generates_or_defers_witness :
    (sampleGenerator sampleOptions [] [sampleEntity "Foo", sampleEntity "Bar"]
        ).importState.exportedEntities ≠ []
    ∧ (generateEntities sampleEnv (sampleGenerator sampleOptions []
        [sampleEntity "Foo", sampleEntity "Bar"])).gen.composed
      = [entityCall (sampleGenerator sampleOptions [] []) (sampleEntity "Foo"),
         entityCall (sampleGenerator sampleOptions [] []) (sampleEntity "Bar")] := by
  have h := generateEntities_generates_or_defers sampleEnv
    (sampleGenerator sampleOptions [] [sampleEntity "Foo", sampleEntity "Bar"])
    (by decide) rfl
  refine ⟨by decide, ?_⟩
  have h2 := (h.1 (by decide)).2.2.1 ((h.1 (by decide)).2.2.2 (fun _ _ => rfl))
  rw [h2]
  rfl

/-- C5: `end` calls `rebuildClient`, once, exactly when `skip-install` is unset, `skipClient`
is falsy, the run is not json-only and `shouldGenerateApplications` is false, that is when
`ignore-application` is set or no application was exported.  For a fresh generator without
exported application and with the entities `Foo` and `Bar`, `end` after the writing phases
sends no leftover message, and it rebuilds the client exactly when `skip-install` is unset,
`skipClient` is falsy and the run is not json-only. -/
theorem end_rebuilds_client_iff (env : Env) (g : Generator) (options : Options)
    (jdlFiles : Option (List String)) (skipClient : Value) (foo bar : Entity) :
    ((«end» g).rebuildClientCalls = g.rebuildClientCalls + 1
      ↔ (g.options.skipInstall.truthy = false ∧ g.skipClient.truthy = false
          ∧ g.options.jsonOnly.truthy = false
          ∧ (g.options.ignoreApplication.truthy = true
              ∨ g.importState.exportedApplications.length = 0)))
    ∧ ((«end» g).rebuildClientCalls ≠ g.rebuildClientCalls + 1 →
        («end» g).rebuildClientCalls = g.rebuildClientCalls)
    ∧ (shouldGenerateApplications g = false
        ↔ (g.options.ignoreApplication.truthy = true
            ∨ g.importState.exportedApplications.length = 0))
    ∧ («end» (writing env
          (Generator.initial options jdlFiles ⟨[], [foo, bar]⟩ skipClient)).gen).infos = []
    ∧ ((«end» (writing env
          (Generator.initial options jdlFiles ⟨[], [foo, bar]⟩ skipClient)).gen).rebuildClientCalls
        = 1 ↔ (options.skipInstall.truthy = false ∧ skipClient.truthy = false
                ∧ options.jsonOnly.truthy = false)) := by
  have hshould : shouldGenerateApplications g = false
      ↔ (g.options.ignoreApplication.truthy = true
          ∨ g.importState.exportedApplications.length = 0) := by
    cases hi : g.options.ignoreApplication.truthy <;>
      simp [shouldGenerateApplications, hi]
  have hrebuild : rebuildsClient g = true
      ↔ (g.options.skipInstall.truthy = false ∧ g.skipClient.truthy = false
          ∧ g.options.jsonOnly.truthy = false
          ∧ (g.options.ignoreApplication.truthy = true
              ∨ g.importState.exportedApplications.length = 0)) := by
    rw [← hshould]
    simp [rebuildsClient, and_assoc]
  obtain ⟨logged, composed, hgen⟩ := generateEntities_gen_few env
    (Generator.initial options jdlFiles ⟨[], [foo, bar]⟩ skipClient) (by simp [Generator.initial])
  rw [writing_without_application env _ (by simp [Generator.initial]), hgen]
  refine ⟨?_, ?_, hshould, ?_, ?_⟩
  · rw [end_rebuildClientCalls, ← hrebuild]
    by_cases hr : rebuildsClient g = true <;> simp [hr]
  · rw [end_rebuildClientCalls]
    by_cases hr : rebuildsClient g = true <;> simp [hr]
  · rw [end_infos]
    simp [Generator.initial]
  · rw [end_rebuildClientCalls]
    cases h1 : options.skipInstall.truthy <;> cases h2 : skipClient.truthy <;>
      cases h3 : options.jsonOnly.truthy <;>
      simp [Generator.initial, rebuildsClient, shouldGenerateApplications, h1, h2, h3]

/-- Witness of C5: a fresh run over the entities `Foo` and `Bar`, without any flag, rebuilds
the client once. -/
theorem end_rebuilds_client_iff_witness :
    («end» (writing sampleEnv (Generator.initial sampleOptions (some ["a.jdl"])
        ⟨[], [sampleEntity "Foo", sampleEntity "Bar"]⟩ .undefined)).gen).rebuildClientCalls = 1 :=
  (end_rebuilds_client_iff sampleEnv (sampleGenerator sampleOptions [] []) sampleOptions
    (some ["a.jdl"]) .undefined (sampleEntity "Foo") (sampleEntity "Bar")).2.2.2.2.mpr
    ⟨rfl, rfl, rfl⟩

/-- C6: `generateEntities` is fail-fast.  In a run that is not json-only and has at most one
exported application, if `composeWith` returns for the entities before position `k` and
throws `thrown` for the entity at position `k`, then the calls made are exactly those for the
entities at positions `0` to `k`, in order, and the phase ends in the fatal error whose
message is the fixed headline followed by `thrown`. -/
theorem generateEntities_fail_fast (env : Env) (g : Generator) (k : Nat) (failing : Entity)
    (thrown : String)
    (hjson : g.options.jsonOnly.truthy = false)
    (happs : g.importState.exportedApplications.length ≤ 1)
    (hbefore : ∀ i entity, i < k → g.importState.exportedEntities[i]? = some entity →
      env.composeWith (g.composed ++ (g.importState.exportedEntities.take i).map (entityCall g))
        (entityCall g entity) = none)
    (hk : g.importState.exportedEntities[k]? = some failing)
    (hfail : env.composeWith
      (g.composed ++ (g.importState.exportedEntities.take k).map (entityCall g))
      (entityCall g failing) = some thrown) :
    (generateEntities env g).gen.composed
      = g.composed ++ (g.importState.exportedEntities.take (k + 1)).map (entityCall g)
    ∧ (generateEntities env g).fatal
      = some ("Error while generating entities from the parsed JDL\n" ++ thrown)
    ∧ (generateEntities env g).gen.entitiesLeftToGenerate = g.entitiesLeftToGenerate := by
  have hne : g.importState.exportedEntities ≠ [] := by
    intro h
    simp [h] at hk
  rw [generateEntities_eq_loop env g hne hjson]
  obtain ⟨m, hm, hgen, hfirst, hnone, hsome⟩ :=
    generateEntitiesLoop_generated env g.importState.exportedEntities g happs
  cases hf : (generateEntitiesLoop env g.importState.exportedEntities g).fatal with
  | none =>
    have := (hnone hf).2 k failing hk
    rw [this] at hfail
    exact absurd hfail (by simp)
  | some err =>
    obtain ⟨j, entity, hmj, hj, hjfail⟩ := hsome err hf
    have hjk : j = k := by
      rcases Nat.lt_trichotomy j k with hlt | heq | hgt
      · have := hbefore j entity hlt hj
        rw [this] at hjfail
        exact absurd hjfail (by simp)
      · exact heq
      · have := hfirst k failing (by omega) hk
        rw [this] at hfail
        exact absurd hfail (by simp)
    subst hjk
    rw [hk] at hj
    simp only [Option.some.injEq] at hj
    subst hj
    rw [hfail] at hjfail
    simp only [Option.some.injEq] at hjfail
    subst hjfail
    simp [hgen, hmj]

/-- Witness of C6: `composeWith` throws `boom` on the second of three entities. -/
theorem generateEntities_fail_fast_witness :
    (generateEntities failingEnv (sampleGenerator sampleOptions []
        [sampleEntity "Foo", sampleEntity "Bar", sampleEntity "Baz"])).gen.composed
      = [entityCall (sampleGenerator sampleOptions [] []) (sampleEntity "Foo"),
         entityCall (sampleGenerator sampleOptions [] []) (sampleEntity "Bar")]
    ∧ (generateEntities failingEnv (sampleGenerator sampleOptions []
        [sampleEntity "Foo", sampleEntity "Bar", sampleEntity "Baz"])).fatal
      = some "Error while generating entities from the parsed JDL\nboom" := by
  have h := generateEntities_fail_fast failingEnv
    (sampleGenerator sampleOptions [] [sampleEntity "Foo", sampleEntity "Bar", sampleEntity "Baz"])
    1 (sampleEntity "Bar") "boom" rfl (by decide)
    (by
      intro i entity hi _
      have hi0 : i = 0 := by omega
      subst hi0
      rfl)
    rfl rfl
  exact ⟨h.1.trans rfl, h.2.1.trans rfl⟩

/-- C10: `validate` ends in a fatal error if and only if some path of `jdlFiles` is not a
file on disk; the error then carries the first such path in list order, inside the sentence
`Could not find ..., make sure the path is correct.` coloured red; and `validate` leaves the
generator as it found it. -/
theorem validate_fatal_iff_missing_file (env : Env) (g : Generator) :
    ((validate env g).fatal.isSome = true
      ↔ ∃ files, g.jdlFiles = some files ∧ ∃ key ∈ files, env.isFile key = false)
    ∧ (∀ files before key after, g.jdlFiles = some files → files = before ++ key :: after →
        (∀ p ∈ before, env.isFile p = true) → env.isFile key = false →
        (validate env g).fatal = some (env.chalk.red
          ("\nCould not find " ++ key ++ ", make sure the path is correct.\n")))
    ∧ (validate env g).gen = g := by
  refine ⟨?_, ?_, ?_⟩
  · cases hfiles : g.jdlFiles with
    | none => simp [validate, hfiles]
    | some files => simp [validate, hfiles, validateLoop_isSome]
  · intro files before key after hfiles hsplit hbefore hkey
    simp only [validate, hfiles, hsplit]
    exact validateLoop_first env before key after hbefore hkey
  · cases hfiles : g.jdlFiles <;> simp [validate, hfiles]

/-- Witness of C10: of the paths `a.jdl`, `b.jdl` and `c.jdl` only the first is a file, and
the error names `b.jdl`. -/
theorem validate_fatal_iff_missing_file_witness :
    (validate failingEnv (Generator.initial sampleOptions (some ["a.jdl", "b.jdl", "c.jdl"])
        ⟨[], []⟩ .undefined)).fatal
      = some "\nCould not find b.jdl, make sure the path is correct.\n" :=
  (validate_fatal_iff_missing_file failingEnv (Generator.initial sampleOptions
    (some ["a.jdl", "b.jdl", "c.jdl"]) ⟨[], []⟩ .undefined)).2.1
    ["a.jdl", "b.jdl", "c.jdl"] ["a.jdl"] "b.jdl" ["c.jdl"] rfl rfl (by decide) (by decide)

/-! ## Ignored applications and deferred entities -/

theorem writing_ignored (env : Env) (g : Generator)
    (hignore : g.options.ignoreApplication.truthy = true) :
    writing env g = generateEntities env g := by
  simp [writing, generateApplications_ignored env g hignore]

theorem generateEntities_deferred (env : Env) (g : Generator)
    (hlen : 1 < g.importState.exportedApplications.length)
    (hjson : g.options.jsonOnly.truthy = false) :
    generateEntities env g =
      ⟨{ g with entitiesLeftToGenerate := g.entitiesLeftToGenerate
          ++ g.importState.exportedEntities.map (fun entity => entity.name) }, none⟩ := by
  by_cases hne : g.importState.exportedEntities = []
  · simp [generateEntities, hne]
  · rw [generateEntities_eq_loop env g hne hjson,
      generateEntitiesLoop_deferred env _ g hlen]
    rfl

theorem generateEntities_jsonOnly (env : Env) (g : Generator)
    (hjson : g.options.jsonOnly.truthy = true) :
    (generateEntities env g).gen.entitiesLeftToGenerate = g.entitiesLeftToGenerate
    ∧ (generateEntities env g).gen.applicationsLeftToGenerate = g.applicationsLeftToGenerate
    ∧ (generateEntities env g).gen.composed = g.composed
    ∧ (generateEntities env g).gen.infos = g.infos
    ∧ (generateEntities env g).fatal = none := by
  unfold generateEntities
  by_cases hlen : (g.importState.exportedEntities.length == 0) = true
  · simp [hlen]
  · simp [hlen, hjson]

/-- C11, as stated, fails: with `ignore-application` set and the two applications `shop` and
`blog`, a json-only run leaves the entity `Foo` out of `entitiesLeftToGenerate`, because
`generateEntities` returns at its json-only guard, and `end` then reports no leftover entity. -/
theorem ignored_applications_jsonOnly_counterexample :
    ignoreApplicationJsonOnlyOptions.ignoreApplication.truthy = true
    ∧ (writing sampleEnv (sampleGenerator ignoreApplicationJsonOnlyOptions
        [sampleApplication "shop", sampleApplication "blog"]
        [sampleEntity "Foo"])).gen.entitiesLeftToGenerate = []
    ∧ («end» (writing sampleEnv (sampleGenerator ignoreApplicationJsonOnlyOptions
        [sampleApplication "shop", sampleApplication "blog"]
        [sampleEntity "Foo"])).gen).infos = [] := by
  decide

/-- C11 (amended): with `ignore-application` set and more than one exported application,
`generateApplications` returns at once: it records no application name and makes no call.
`generateEntities` then makes no sub-generator call and ends without error; in a run that is
not json-only it appends every entity name in list order to `entitiesLeftToGenerate`, and in
a json-only run it leaves that list as it was.  So in a run that is not json-only, starting
from empty leftover lists, `end` sends no message for leftover applications and, when there is
an exported entity, one message with the deduplicated entity names. -/
theorem ignored_applications_defer_entities (env : Env) (g : Generator)
    (hignore : g.options.ignoreApplication.truthy = true)
    (hlen : 1 < g.importState.exportedApplications.length) :
    generateApplications env g = ⟨g, none⟩
    ∧ (writing env g).gen.composed = g.composed
    ∧ (writing env g).fatal = none
    ∧ (writing env g).gen.applicationsLeftToGenerate = g.applicationsLeftToGenerate
    ∧ (g.options.jsonOnly.truthy = true →
        (writing env g).gen.entitiesLeftToGenerate = g.entitiesLeftToGenerate)
    ∧ (g.options.jsonOnly.truthy = false →
        (writing env g).gen.entitiesLeftToGenerate = g.entitiesLeftToGenerate
          ++ g.importState.exportedEntities.map (fun entity => entity.name))
    ∧ (g.options.jsonOnly.truthy = false → g.applicationsLeftToGenerate = [] →
        g.entitiesLeftToGenerate = [] →
        («end» (writing env g).gen).infos = g.infos
          ++ (if g.importState.exportedEntities = [] then []
              else ["Here are the entity names to generate manually: "
                ++ join ", " (uniq (g.importState.exportedEntities.map
                    (fun entity => entity.name)))])) := by
  rw [writing_ignored env g hignore]
  refine ⟨generateApplications_ignored env g hignore, ?_, ?_, ?_, ?_, ?_, ?_⟩
  · cases hjson : g.options.jsonOnly.truthy with
    | true => exact (generateEntities_jsonOnly env g hjson).2.2.1
    | false => rw [generateEntities_deferred env g hlen hjson]
  · cases hjson : g.options.jsonOnly.truthy with
    | true => exact (generateEntities_jsonOnly env g hjson).2.2.2.2
    | false => rw [generateEntities_deferred env g hlen hjson]
  · cases hjson : g.options.jsonOnly.truthy with
    | true => exact (generateEntities_jsonOnly env g hjson).2.1
    | false => rw [generateEntities_deferred env g hlen hjson]
  · intro hjson
    exact (generateEntities_jsonOnly env g hjson).1
  · intro hjson
    rw [generateEntities_deferred env g hlen hjson]
  · intro hjson hla hle
    rw [generateEntities_deferred env g hlen hjson, end_infos]
    by_cases hne : g.importState.exportedEntities = []
    · simp [hne, hla, hle]
    · simp [hne, hla, hle, entitiesInfo]

/-- Witness of C11 (amended): the applications `shop` and `blog` are ignored and the entities
`Foo`, `Bar` and `Foo` again are deferred; `end` reports `Foo, Bar`. -/
theorem ignored_applications_defer_entities_witness :
    ignoreApplicationOptions.ignoreApplication.truthy = true
    ∧ ignoreApplicationOptions.jsonOnly.truthy = false
    ∧ («end» (writing sampleEnv (sampleGenerator ignoreApplicationOptions
        [sampleApplication "shop", sampleApplication "blog"]
        [sampleEntity "Foo", sampleEntity "Bar", sampleEntity "Foo"])).gen).infos
      = ["Here are the entity names to generate manually: Foo, Bar"] :=
  ⟨by decide, by decide,
    ((ignored_applications_defer_entities sampleEnv (sampleGenerator ignoreApplicationOptions
      [sampleApplication "shop", sampleApplication "blog"]
      [sampleEntity "Foo", sampleEntity "Bar", sampleEntity "Foo"]) (by decide)
      (by decide)).2.2.2.2.2.2 (by decide) rfl rfl).trans (by decide)⟩

end ImportJdl

namespace NeedleClientVue

/-! ## Facts about the text helpers -/

theorem includesChars_iff_occurs (search l : List Char) :
    includesChars search l = true ↔ search <:+: l := by
  induction l with
  | nil => simp [includesChars, List.isEmpty_iff]
  | cons c cs ih =>
    simp only [includesChars, Bool.or_eq_true, ih, List.infix_cons_iff,
      List.isPrefixOf_iff_prefix]

theorem includes_iff_occurs (s search : String) :
    includes s search = true ↔ search.data <:+: s.data :=
  includesChars_iff_occurs search.data s.data

theorem includes_middle (before s after : String) : includes (before ++ s ++ after) s = true := by
  rw [includes_iff_occurs]
  exact ⟨before.data, after.data, by simp [String.data_append]⟩

theorem locateChars_none (marker l : List Char) (h : locateChars marker l = none) :
    ¬ marker <:+: l := by
  induction l with
  | nil =>
    intro hin
    have : marker = [] := List.infix_nil.mp hin
    simp [locateChars, this] at h
  | cons c cs ih =>
    intro hin
    unfold locateChars at h
    by_cases hp : marker.isPrefixOf (c :: cs) = true
    · simp [hp] at h
    · simp only [hp, Bool.false_eq_true, if_false, Option.map_eq_none'] at h
      rcases List.infix_cons_iff.mp hin with hpre | hrest
      · exact hp (List.isPrefixOf_iff_prefix.mpr hpre)
      · exact ih h hrest

theorem stripMarginFrom_inside (line rest : List Char)
    (h : ∀ c ∈ line, isLineTerminator c = false) :
    stripMarginFrom none (line ++ rest) = line ++ stripMarginFrom none rest := by
  induction line with
  | nil => rfl
  | cons c cs ih =>
    have hc : isLineTerminator c = false := h c (List.mem_cons_self c cs)
    have ih2 := ih (fun d hd => h d (List.mem_cons_of_mem c hd))
    simp [stripMarginFrom, hc, ih2]

theorem stripMarginFrom_inside_end (line : List Char)
    (h : ∀ c ∈ line, isLineTerminator c = false) :
    stripMarginFrom none line = line := by
  have := stripMarginFrom_inside line [] h
  simpa [stripMarginFrom] using this

theorem stripMarginFrom_margin (n k : Nat) (rest : List Char) :
    stripMarginFrom (some n) (List.replicate k ' ' ++ '|' :: rest) = stripMarginFrom none rest := by
  induction k generalizing n with
  | zero => simp [stripMarginFrom]
  | succ k ih => simp [List.replicate_succ, stripMarginFrom, ih]

theorem stripMarginFrom_line (k : Nat) (line rest : List Char)
    (h : ∀ c ∈ line, isLineTerminator c = false) :
    stripMarginFrom (some 0) (List.replicate k ' ' ++ '|' :: (line ++ '\n' :: rest))
      = line ++ '\n' :: stripMarginFrom (some 0) rest := by
  rw [stripMarginFrom_margin, stripMarginFrom_inside line _ h]
  simp [stripMarginFrom, isLineTerminator]

theorem stripMarginFrom_last_line (k : Nat) (line : List Char)
    (h : ∀ c ∈ line, isLineTerminator c = false) :
    stripMarginFrom (some 0) (List.replicate k ' ' ++ '|' :: line) = line := by
  rw [stripMarginFrom_margin, stripMarginFrom_inside_end line h]

theorem singleLine_iff (s : String) :
    singleLine s = true ↔ ∀ c ∈ s.data, isLineTerminator c = false := by
  simp [singleLine, List.all_eq_true]

theorem splitLines_single (line : List Char) (h : ∀ c ∈ line, isLineTerminator c = false) :
    splitLines line = [line] := by
  induction line with
  | nil => rfl
  | cons c cs ih =>
    have hc : c ≠ '\n' := by
      intro hc
      have := h c (List.mem_cons_self c cs)
      simp [hc, isLineTerminator] at this
    simp [splitLines, hc, ih (fun d hd => h d (List.mem_cons_of_mem c hd))]

theorem splitLines_line (line rest : List Char)
    (h : ∀ c ∈ line, isLineTerminator c = false) :
    splitLines (line ++ '\n' :: rest) = line :: splitLines rest := by
  induction line with
  | nil => simp [splitLines]
  | cons c cs ih =>
    have hc : c ≠ '\n' := by
      intro hc
      have := h c (List.mem_cons_self c cs)
      simp [hc, isLineTerminator] at this
    simp [splitLines, hc, ih (fun d hd => h d (List.mem_cons_of_mem c hd))]

theorem singleLine_append (a b : String) :
    singleLine (a ++ b) = (singleLine a && singleLine b) := by
  simp [singleLine, String.data_append, List.all_append]

theorem stripMargin_single (k : Nat) (template line : String)
    (htemplate : template.data = List.replicate k ' ' ++ '|' :: line.data)
    (hline : singleLine line = true) : stripMargin template = line := by
  apply String.ext
  simp only [stripMargin, htemplate]
  exact stripMarginFrom_last_line k line.data ((singleLine_iff line).mp hline)

/-! ## Facts about the payloads -/

theorem isImportBinding_importBinding (name folderName fileName suffix : String) :
    isImportBinding (importBinding name folderName fileName suffix).data = true := by
  simp only [isImportBinding, Bool.and_eq_true]
  constructor
  · rw [List.isPrefixOf_iff_prefix]
    exact ⟨(name ++ " = () => import('@/entities/" ++ folderName ++ "/" ++ fileName ++ suffix
      ++ "');").data, by simp [importBinding, String.data_append]⟩
  · rw [includesChars_iff_occurs]
    exact ⟨("const " ++ name).data, ("'@/entities/" ++ folderName ++ "/" ++ fileName ++ suffix
      ++ "');").data, by simp [importBinding, String.data_append]⟩

theorem singleLine_importBinding (name folderName fileName suffix : String)
    (hn : singleLine name = true) (hd : singleLine folderName = true)
    (hf : singleLine fileName = true) (hs : singleLine suffix = true) :
    singleLine (importBinding name folderName fileName suffix) = true := by
  simp [importBinding, singleLine_append, hn, hd, hf, hs]
  decide

set_option maxRecDepth 100000 in
theorem routerImport_payload_full (entityName fileName folderName : String)
    (hn : singleLine entityName = true) (hf : singleLine fileName = true)
    (hd : singleLine folderName = true) :
    (stripMargin (routerImportTemplate entityName fileName folderName false)).data
      = "// prettier-ignore".data ++ '\n' ::
        ((importBinding entityName folderName fileName ".vue").data ++ '\n' ::
        ("// prettier-ignore".data ++ '\n' ::
        ((importBinding (entityName ++ "Update") folderName fileName "-update.vue").data ++ '\n' ::
        ("// prettier-ignore".data ++ '\n' ::
        (importBinding (entityName ++ "Details") folderName fileName "-details.vue").data)))) := by
  have hdata : (routerImportTemplate entityName fileName folderName false).data
      = List.replicate 0 ' ' ++ '|' :: ("// prettier-ignore".data ++ '\n' ::
        (List.replicate 16 ' ' ++ '|' ::
          ((importBinding entityName folderName fileName ".vue").data ++ '\n' ::
        (List.replicate 16 ' ' ++ '|' :: ("// prettier-ignore".data ++ '\n' ::
        (List.replicate 16 ' ' ++ '|' ::
          ((importBinding (entityName ++ "Update") folderName fileName "-update.vue").data
            ++ '\n' ::
        (List.replicate 16 ' ' ++ '|' :: ("// prettier-ignore".data ++ '\n' ::
        (List.replicate 16 ' ' ++ '|' ::
          (importBinding (entityName ++ "Details") folderName fileName "-details.vue").data
          )))))))))) := by
    simp [routerImportTemplate, importBinding, String.data_append, List.replicate]
  have hcomment : ∀ c ∈ "// prettier-ignore".data, isLineTerminator c = false := by decide
  have h1 := (singleLine_iff _).mp (singleLine_importBinding entityName folderName fileName
    ".vue" hn hd hf (by decide))
  have h2 := (singleLine_iff _).mp (singleLine_importBinding (entityName ++ "Update") folderName
    fileName "-update.vue" (by simp [singleLine_append, hn]; decide) hd hf (by decide))
  have h3 := (singleLine_iff _).mp (singleLine_importBinding (entityName ++ "Details") folderName
    fileName "-details.vue" (by simp [singleLine_append, hn]; decide) hd hf (by decide))
  simp only [stripMargin, hdata]
  rw [stripMarginFrom_line _ _ _ hcomment, stripMarginFrom_line _ _ _ h1,
    stripMarginFrom_line _ _ _ hcomment, stripMarginFrom_line _ _ _ h2,
    stripMarginFrom_line _ _ _ hcomment, stripMarginFrom_last_line _ _ h3]

set_option maxRecDepth 100000 in
theorem routerImport_payload_readOnly (entityName fileName folderName : String)
    (hn : singleLine entityName = true) (hf : singleLine fileName = true)
    (hd : singleLine folderName = true) :
    (stripMargin (routerImportTemplate entityName fileName folderName true)).data
      = "// prettier-ignore".data ++ '\n' ::
        ((importBinding entityName folderName fileName ".vue").data ++ '\n' ::
        ("// prettier-ignore".data ++ '\n' ::
        (importBinding (entityName ++ "Details") folderName fileName "-details.vue").data)) := by
  have hdata : (routerImportTemplate entityName fileName folderName true).data
      = List.replicate 0 ' ' ++ '|' :: ("// prettier-ignore".data ++ '\n' ::
        (List.replicate 16 ' ' ++ '|' ::
          ((importBinding entityName folderName fileName ".vue").data ++ '\n' ::
        (List.replicate 16 ' ' ++ '|' :: ("// prettier-ignore".data ++ '\n' ::
        (List.replicate 16 ' ' ++ '|' ::
          (importBinding (entityName ++ "Details") folderName fileName "-details.vue").data
          )))))) := by
    simp [routerImportTemplate, importBinding, String.data_append, List.replicate]
  have hcomment : ∀ c ∈ "// prettier-ignore".data, isLineTerminator c = false := by decide
  have h1 := (singleLine_iff _).mp (singleLine_importBinding entityName folderName fileName
    ".vue" hn hd hf (by decide))
  have h3 := (singleLine_iff _).mp (singleLine_importBinding (entityName ++ "Details") folderName
    fileName "-details.vue" (by simp [singleLine_append, hn]; decide) hd hf (by decide))
  simp only [stripMargin, hdata]
  rw [stripMarginFrom_line _ _ _ hcomment, stripMarginFrom_line _ _ _ h1,
    stripMarginFrom_line _ _ _ hcomment, stripMarginFrom_last_line _ _ h3]

/-! ## Facts about the file mutator and the router guard -/

theorem addBlockContentToFile_present (placement : Placement) (request : NeedleRequest)
    (fileText : String) (h : includes fileText request.rewriteFileModel.splicable = true) :
    (addBlockContentToFile placement request fileText).text = fileText := by
  simp [addBlockContentToFile, h]

theorem addBlockContentToFile_text (placement : Placement) (request : NeedleRequest)
    (fileText : String) :
    ((addBlockContentToFile placement request fileText).text = fileText
        ∧ (includes fileText request.rewriteFileModel.needle = true →
            includes fileText request.rewriteFileModel.splicable = true))
    ∨ includes (addBlockContentToFile placement request fileText).text
        request.rewriteFileModel.splicable = true := by
  unfold addBlockContentToFile
  by_cases hpresent : includes fileText request.rewriteFileModel.splicable = true
  · exact Or.inl ⟨by simp [hpresent], fun _ => hpresent⟩
  · simp only [hpresent, Bool.false_eq_true, if_false]
    cases hlocate : locate fileText request.rewriteFileModel.needle with
    | none =>
      refine Or.inl ⟨rfl, fun hneedle => ?_⟩
      exact absurd ((includes_iff_occurs _ _).mp hneedle) (locateChars_none _ _ hlocate)
    | some position =>
      refine Or.inr ?_
      rw [includes_iff_occurs]
      exact ⟨_, _, rfl⟩

theorem addEntityToRouter_eq (self : Needle) (entityName entityFileName : String)
    (readOnly : Bool) (fileText : String) :
    addEntityToRouter self entityName entityFileName readOnly fileText
      = if includes fileText (routerPathFragment entityFileName) then none
        else some ⟨generateFileModel (self.CLIENT_MAIN_SRC_DIR ++ "/app/router/entities.ts")
            "jhipster-needle-add-entity-to-router"
            (stripMargin (routerTemplate entityName entityFileName readOnly)),
          addEntityToRouterErrorMessage self entityName⟩ := by
  simp [addEntityToRouter, checkStringInFile]

theorem routerFileAfter_fixed (self : Needle) (placement : Placement)
    (entityName entityFileName : String) (readOnly : Bool) (fileText : String)
    (h : includes fileText (routerPathFragment entityFileName) = true
      ∨ includes fileText (stripMargin (routerTemplate entityName entityFileName readOnly))
          = true) :
    routerFileAfter self placement entityName entityFileName readOnly fileText = fileText := by
  unfold routerFileAfter
  rw [addEntityToRouter_eq]
  by_cases hguard : includes fileText (routerPathFragment entityFileName) = true
  · simp [hguard]
  · rcases h with h | h
    · exact absurd h hguard
    · simp only [hguard, Bool.false_eq_true, if_false]
      exact addBlockContentToFile_present placement _ fileText h

theorem routerFileAfter_cases (self : Needle) (placement : Placement)
    (entityName entityFileName : String) (readOnly : Bool) (fileText : String) :
    (routerFileAfter self placement entityName entityFileName readOnly fileText = fileText
        ∧ (includes fileText "jhipster-needle-add-entity-to-router" = true →
            includes fileText (routerPathFragment entityFileName) = true
              ∨ includes fileText
                  (stripMargin (routerTemplate entityName entityFileName readOnly)) = true))
    ∨ includes (routerFileAfter self placement entityName entityFileName readOnly fileText)
        (stripMargin (routerTemplate entityName entityFileName readOnly)) = true := by
  unfold routerFileAfter
  rw [addEntityToRouter_eq]
  by_cases hguard : includes fileText (routerPathFragment entityFileName) = true
  · exact Or.inl ⟨by simp [hguard], fun _ => Or.inl hguard⟩
  · simp only [hguard, Bool.false_eq_true, if_false]
    rcases addBlockContentToFile_text placement
      ⟨generateFileModel (self.CLIENT_MAIN_SRC_DIR ++ "/app/router/entities.ts")
        "jhipster-needle-add-entity-to-router"
        (stripMargin (routerTemplate entityName entityFileName readOnly)),
        addEntityToRouterErrorMessage self entityName⟩ fileText with ⟨hsame, hneedle⟩ | hspliced
    · exact Or.inl ⟨hsame, fun h => Or.inr (hneedle h)⟩
    · exact Or.inr hspliced

set_option maxRecDepth 100000 in
theorem routerTemplate_data (entityName entityFileName : String) (readOnly : Bool) :
    ∃ rest, (routerTemplate entityName entityFileName readOnly).data
      = List.replicate 0 ' ' ++ '|' :: ("    \x7b".data ++ '\n' ::
        (List.replicate 16 ' ' ++ '|' ::
          (("      " ++ routerPathFragment entityFileName).data ++ rest))) := by
  cases readOnly with
  | false =>
    exact ⟨(",\n"
      ++ "                |      name: '" ++ entityName ++ "',\n"
      ++ "                |      component: " ++ entityName ++ ",\n"
      ++ "                |      meta: \x7b authorities: [Authority.USER] \x7d\n"
      ++ "                |    \x7d," ++ "\n"
      ++ routeRecord false (entityFileName ++ "/new") (entityName ++ "Create")
          (entityName ++ "Update") ++ "\n"
      ++ routeRecord false (entityFileName ++ "/:" ++ entityFileName ++ "Id/edit")
          (entityName ++ "Edit") (entityName ++ "Update") ++ "\n"
      ++ routeRecord false (entityFileName ++ "/:" ++ entityFileName ++ "Id/view")
          (entityName ++ "View") (entityName ++ "Details")).data,
      by simp [routerTemplate, routeRecord, routerPathFragment, String.data_append,
        List.replicate]⟩
  | true =>
    exact ⟨(",\n"
      ++ "                |      name: '" ++ entityName ++ "',\n"
      ++ "                |      component: " ++ entityName ++ ",\n"
      ++ "                |      meta: \x7b authorities: [Authority.USER] \x7d\n"
      ++ "                |    \x7d," ++ "\n"
      ++ routeRecord false (entityFileName ++ "/:" ++ entityFileName ++ "Id/view")
          (entityName ++ "View") (entityName ++ "Details")).data,
      by simp [routerTemplate, routeRecord, routerPathFragment, String.data_append,
        List.replicate]⟩

theorem routerPayload_includes_fragment (entityName entityFileName : String) (readOnly : Bool)
    (hfile : singleLine entityFileName = true) :
    includes (stripMargin (routerTemplate entityName entityFileName readOnly))
      (routerPathFragment entityFileName) = true := by
  obtain ⟨rest, hdata⟩ := routerTemplate_data entityName entityFileName readOnly
  have hbrace : ∀ c ∈ "    \x7b".data, isLineTerminator c = false := by decide
  have hline : ∀ c ∈ ("      " ++ routerPathFragment entityFileName).data,
      isLineTerminator c = false := by
    rw [← singleLine_iff]
    simp [routerPathFragment, singleLine_append, hfile]
    decide
  rw [includes_iff_occurs]
  simp only [stripMargin, hdata]
  rw [stripMarginFrom_line _ _ _ hbrace, stripMarginFrom_margin,
    stripMarginFrom_inside _ _ hline]
  exact ⟨"    \x7b\n      ".data, stripMarginFrom none rest, by simp [String.data_append]⟩

/-! ## The claims on the request builders -/

/-- C8: each of the five builders constructs, for every input, a warning message in which
the referenced name (`routerName`, `entityName` or `entityClass`) occurs verbatim, and the
request of `addEntityToRouter`, when there is one, carries the message built in the first
statement of the method.  With the colour functions left aside the message of
`addEntityToMenu` is `Reference to <routerName> not added to menu.` followed by a line feed,
which for the router name `product` reads `Reference to product not added to menu.`. -/
theorem errorMessage_names_reference (self : Needle)
    (routerName entityName entityClass fileName folderName translationKey fileText : String)
    (enableTranslation readOnly : Bool) :
    includes (addEntityToMenu self routerName enableTranslation translationKey).errorMessage
        routerName = true
    ∧ includes (addEntityToRouterImport self entityName fileName folderName readOnly).errorMessage
        entityName = true
    ∧ includes (addEntityToRouterErrorMessage self entityName) entityName = true
    ∧ (∀ request, addEntityToRouter self entityName fileName readOnly fileText = some request →
        request.errorMessage = addEntityToRouterErrorMessage self entityName)
    ∧ includes (addEntityServiceToMainImport self entityClass fileName folderName).errorMessage
        entityClass = true
    ∧ includes (addEntityServiceToMain self entityClass fileName).errorMessage entityClass = true
    ∧ (addEntityToMenu { self with chalk := ImportJdl.Chalk.plain } routerName enableTranslation
        translationKey).errorMessage = "Reference to " ++ routerName ++ " not added to menu.\n"
    ∧ (addEntityToMenu { self with chalk := ImportJdl.Chalk.plain } "product" enableTranslation
        translationKey).errorMessage = "Reference to product not added to menu.\n" := by
  have hmid : ∀ a name b : String, includes (a ++ name ++ " " ++ b) name = true := by
    intro a name b
    have := includes_middle a name (" " ++ b)
    simpa [String.append_assoc] using this
  refine ⟨hmid _ _ _, hmid _ _ _, hmid _ _ _, ?_, hmid _ _ _, hmid _ _ _, ?_, ?_⟩
  · intro request hrequest
    unfold addEntityToRouter at hrequest
    by_cases hguard : checkStringInFile fileText (routerPathFragment fileName) = true
    · simp [hguard] at hrequest
    · simp only [hguard, Bool.false_eq_true, if_false, Option.some.injEq] at hrequest
      rw [← hrequest]
  · simp [addEntityToMenu, ImportJdl.Chalk.plain, String.append_assoc]
  · simp [addEntityToMenu, ImportJdl.Chalk.plain]

/-- Witness of C8: on a router file without the path of `foo` the request of
`addEntityToRouter` carries the message that names `Foo`. -/
theorem errorMessage_names_reference_witness :
    ∃ request, addEntityToRouter plainNeedle "Foo" "foo" false
        "// jhipster-needle-add-entity-to-router" = some request
      ∧ request.errorMessage = "Reference to entity Foo not added to router entities.\n" := by
  cases hrequest : addEntityToRouter plainNeedle "Foo" "foo" false
      "// jhipster-needle-add-entity-to-router" with
  | none => exact absurd hrequest (by decide)
  | some request =>
    refine ⟨request, rfl, ?_⟩
    rw [(errorMessage_names_reference plainNeedle "product" "Foo" "Foo" "foo" "foo" "product"
      "// jhipster-needle-add-entity-to-router" false false).2.2.2.1 request hrequest]
    decide

set_option maxRecDepth 100000 in
/-- C7, as stated, fails: for the entity `Foo` in the folder and file `foo` the payload of
`addEntityToRouterImport` has three import bindings when the entity is not read-only, not
two, and two when it is read-only, not one.  A folder name with a line break in it changes
the count again: six and four bindings. -/
theorem routerImport_bindings_counterexample :
    countImportBindings
        (addEntityToRouterImport plainNeedle "Foo" "foo" "foo" false).rewriteFileModel.splicable
      = 3
    ∧ countImportBindings
        (addEntityToRouterImport plainNeedle "Foo" "foo" "foo" true).rewriteFileModel.splicable
      = 2
    ∧ countImportBindings (addEntityToRouterImport plainNeedle "Foo" "foo"
        "x');\nconst Y = () => import('y" false).rewriteFileModel.splicable = 6
    ∧ countImportBindings (addEntityToRouterImport plainNeedle "Foo" "foo"
        "x');\nconst Y = () => import('y" true).rewriteFileModel.splicable = 4 := by
  decide

/-- C7 (amended): for every `entityName`, `fileName` and `folderName` without a line break,
the payload of `addEntityToRouterImport` holds three lazy-loaded import bindings when the
entity is not read-only (the list view, the `Update` view and the `Details` view) and two
when it is read-only: the read-only payload leaves out the `<entityName>Update` binding of
`-update.vue`, with the comment line above it, and so has exactly one binding fewer. -/
theorem routerImport_bindings (self : Needle) (entityName fileName folderName : String)
    (hn : singleLine entityName = true) (hf : singleLine fileName = true)
    (hd : singleLine folderName = true) :
    (addEntityToRouterImport self entityName fileName folderName false).rewriteFileModel.splicable
      = "// prettier-ignore\n" ++ importBinding entityName folderName fileName ".vue"
        ++ "\n// prettier-ignore\n"
        ++ importBinding (entityName ++ "Update") folderName fileName "-update.vue"
        ++ "\n// prettier-ignore\n"
        ++ importBinding (entityName ++ "Details") folderName fileName "-details.vue"
    ∧ (addEntityToRouterImport self entityName fileName folderName true).rewriteFileModel.splicable
      = "// prettier-ignore\n" ++ importBinding entityName folderName fileName ".vue"
        ++ "\n// prettier-ignore\n"
        ++ importBinding (entityName ++ "Details") folderName fileName "-details.vue"
    ∧ countImportBindings (addEntityToRouterImport self entityName fileName folderName
        false).rewriteFileModel.splicable = 3
    ∧ countImportBindings (addEntityToRouterImport self entityName fileName folderName
        true).rewriteFileModel.splicable = 2 := by
  have hfull := routerImport_payload_full entityName fileName folderName hn hf hd
  have hread := routerImport_payload_readOnly entityName fileName folderName hn hf hd
  have hcomment : ∀ c ∈ "// prettier-ignore".data, isLineTerminator c = false := by decide
  have hnot : isImportBinding "// prettier-ignore".data = false := by decide
  have h1 := (singleLine_iff _).mp (singleLine_importBinding entityName folderName fileName
    ".vue" hn hd hf (by decide))
  have h2 := (singleLine_iff _).mp (singleLine_importBinding (entityName ++ "Update") folderName
    fileName "-update.vue" (by simp [singleLine_append, hn]; decide) hd hf (by decide))
  have h3 := (singleLine_iff _).mp (singleLine_importBinding (entityName ++ "Details") folderName
    fileName "-details.vue" (by simp [singleLine_append, hn]; decide) hd hf (by decide))
  refine ⟨?_, ?_, ?_, ?_⟩
  · apply String.ext
    simp only [addEntityToRouterImport, generateFileModel, hfull]
    simp [String.data_append]
  · apply String.ext
    simp only [addEntityToRouterImport, generateFileModel, hread]
    simp [String.data_append]
  · simp only [countImportBindings, addEntityToRouterImport, generateFileModel, hfull]
    rw [splitLines_line _ _ hcomment, splitLines_line _ _ h1, splitLines_line _ _ hcomment,
      splitLines_line _ _ h2, splitLines_line _ _ hcomment, splitLines_single _ h3]
    simp [List.filter, hnot, isImportBinding_importBinding]
  · simp only [countImportBindings, addEntityToRouterImport, generateFileModel, hread]
    rw [splitLines_line _ _ hcomment, splitLines_line _ _ h1, splitLines_line _ _ hcomment,
      splitLines_single _ h3]
    simp [List.filter, hnot, isImportBinding_importBinding]

/-- Witness of C7 (amended) for the entity `Foo` in the folder and file `foo`. -/
theorem routerImport_bindings_witness :
    singleLine "Foo" = true ∧ singleLine "foo" = true
    ∧ (addEntityToRouterImport plainNeedle "Foo" "foo" "foo" true).rewriteFileModel.splicable
      = "// prettier-ignore\n" ++ importBinding "Foo" "foo" "foo" ".vue"
        ++ "\n// prettier-ignore\n" ++ importBinding ("Foo" ++ "Details") "foo" "foo" "-details.vue" :=
  ⟨by decide, by decide,
    (routerImport_bindings plainNeedle "Foo" "foo" "foo" (by decide) (by decide) (by decide)).2.1⟩

set_option maxRecDepth 100000 in
/-- C9, as stated, fails: for the entity file name `Product` the factory registration built by
`addEntityServiceToMain` has the key `ProductService`, whose first character is upper case,
although no argument holds a line break. -/
theorem registration_key_counterexample :
    singleLine "Product" = true
    ∧ (addEntityServiceToMain plainNeedle "Product" "Product").rewriteFileModel.splicable
      = "    ProductService: () => new ProductService(),"
    ∧ registrationKey
        (addEntityServiceToMain plainNeedle "Product" "Product").rewriteFileModel.splicable
      = "ProductService".data
    ∧ (registrationKey (addEntityServiceToMain plainNeedle "Product"
        "Product").rewriteFileModel.splicable).head?.map Char.isUpper = some true := by
  decide

/-- C9 (amended): for every `entityClass`, `entityFileName` and `entityFolderName` without a
line break, `addEntityServiceToMainImport` builds a single-line import statement and
`addEntityServiceToMain` builds a single-line factory registration, indented by four blanks,
whose key is the argument `entityFileName` as it was passed, followed by `Service`: the
builder does not change the case of its first character. -/
theorem service_payloads_single_line (self : Needle)
    (entityClass entityFileName entityFolderName : String)
    (hclass : singleLine entityClass = true) (hfile : singleLine entityFileName = true)
    (hfolder : singleLine entityFolderName = true) :
    (addEntityServiceToMainImport self entityClass entityFileName
        entityFolderName).rewriteFileModel.splicable
      = "import " ++ entityClass ++ "Service from '@/entities/" ++ entityFolderName ++ "/"
          ++ entityFileName ++ ".service';"
    ∧ singleLine (addEntityServiceToMainImport self entityClass entityFileName
        entityFolderName).rewriteFileModel.splicable = true
    ∧ (addEntityServiceToMain self entityClass entityFileName).rewriteFileModel.splicable
      = "    " ++ entityFileName ++ "Service: () => new " ++ entityClass ++ "Service(),"
    ∧ singleLine (addEntityServiceToMain self entityClass entityFileName).rewriteFileModel.splicable
      = true
    ∧ ((∀ c ∈ entityFileName.data, c ≠ ' ' ∧ c ≠ ':') →
        registrationKey
            (addEntityServiceToMain self entityClass entityFileName).rewriteFileModel.splicable
          = (entityFileName ++ "Service").data) := by
  have himport : (addEntityServiceToMainImport self entityClass entityFileName
      entityFolderName).rewriteFileModel.splicable
      = "import " ++ entityClass ++ "Service from '@/entities/" ++ entityFolderName ++ "/"
          ++ entityFileName ++ ".service';" := by
    simp only [addEntityServiceToMainImport, generateFileModel]
    refine stripMargin_single 0 _ _ (by simp [String.data_append]) ?_
    simp [singleLine_append, hclass, hfile, hfolder]
    decide
  have hmain : (addEntityServiceToMain self entityClass entityFileName).rewriteFileModel.splicable
      = "    " ++ entityFileName ++ "Service: () => new " ++ entityClass ++ "Service()," := by
    simp only [addEntityServiceToMain, generateFileModel]
    refine stripMargin_single 0 _ _ (by simp [String.data_append]) ?_
    simp [singleLine_append, hclass, hfile]
    decide
  refine ⟨himport, ?_, hmain, ?_, ?_⟩
  · rw [himport]
    simp [singleLine_append, hclass, hfile, hfolder]
    decide
  · rw [hmain]
    simp [singleLine_append, hclass, hfile]
    decide
  · intro hkey
    rw [hmain]
    have hdata : ("    " ++ entityFileName ++ "Service: () => new " ++ entityClass
        ++ "Service(),").data
        = "    ".data ++ ((entityFileName.data ++ "Service".data)
            ++ ':' :: (" () => new " ++ entityClass ++ "Service(),").data) := by
      simp [String.data_append]
    have hdrop : List.dropWhile (fun c => c == ' ') ((entityFileName.data ++ "Service".data)
          ++ ':' :: (" () => new " ++ entityClass ++ "Service(),").data)
        = (entityFileName.data ++ "Service".data)
          ++ ':' :: (" () => new " ++ entityClass ++ "Service(),").data := by
      cases hfn : entityFileName.data with
      | nil => rfl
      | cons c rest =>
        have hc : (c == ' ') = false := by simpa using (hkey c (by simp [hfn])).1
        simp only [List.cons_append, List.dropWhile, hc]
        simp
    have htake : ∀ c ∈ entityFileName.data ++ "Service".data, (c != ':') = true := by
      intro c hc
      rcases List.mem_append.mp hc with h | h
      · simpa using (hkey c h).2
      · have hliteral : ∀ d ∈ "Service".data, (d != ':') = true := by decide
        exact hliteral c h
    unfold registrationKey
    rw [hdata, List.dropWhile_append_of_pos (by decide), hdrop,
      List.takeWhile_append_of_pos htake]
    simp [String.data_append]

/-- Witness of C9 (amended) for the class `Product` and the file name `product`. -/
theorem service_payloads_single_line_witness :
    singleLine "Product" = true ∧ singleLine "product" = true
    ∧ registrationKey
        (addEntityServiceToMain plainNeedle "Product" "product").rewriteFileModel.splicable
      = ("product" ++ "Service").data :=
  ⟨by decide, by decide,
    (service_payloads_single_line plainNeedle "Product" "product" "product" (by decide)
      (by decide) (by decide)).2.2.2.2 (by decide)⟩

/-- C4: route registration is idempotent.  For every entity name, entity file name, read-only
flag, side of the marker and router file text, a second call of `addEntityToRouter` right
after the first leaves the text that the first call produced.  When the entity file name has
no line break, the payload holds the fragment `path: '/<entityFileName>'`; then, on a router
file that contains the needle `jhipster-needle-add-entity-to-router`, the guard of the second
call finds the fragment and the second call builds no request. -/
theorem addEntityToRouter_idempotent (self : Needle) (placement : Placement)
    (entityName entityFileName : String) (readOnly : Bool) (fileText : String) :
    routerFileAfter self placement entityName entityFileName readOnly
        (routerFileAfter self placement entityName entityFileName readOnly fileText)
      = routerFileAfter self placement entityName entityFileName readOnly fileText
    ∧ (singleLine entityFileName = true →
        includes (stripMargin (routerTemplate entityName entityFileName readOnly))
          (routerPathFragment entityFileName) = true)
    ∧ (singleLine entityFileName = true →
        includes fileText "jhipster-needle-add-entity-to-router" = true →
        addEntityToRouter self entityName entityFileName readOnly
          (routerFileAfter self placement entityName entityFileName readOnly fileText) = none) := by
  refine ⟨?_, routerPayload_includes_fragment entityName entityFileName readOnly, ?_⟩
  · rcases routerFileAfter_cases self placement entityName entityFileName readOnly fileText
      with ⟨hsame, -⟩ | hspliced
    · rw [hsame, hsame]
    · exact routerFileAfter_fixed self placement entityName entityFileName readOnly _
        (Or.inr hspliced)
  · intro hfile hneedle
    have hfragment := routerPayload_includes_fragment entityName entityFileName readOnly hfile
    have hpayload : ∀ text : String,
        includes text (stripMargin (routerTemplate entityName entityFileName readOnly)) = true →
        includes text (routerPathFragment entityFileName) = true := by
      intro text htext
      rw [includes_iff_occurs] at htext hfragment ⊢
      exact List.IsInfix.trans hfragment htext
    have hguard : includes (routerFileAfter self placement entityName entityFileName readOnly
        fileText) (routerPathFragment entityFileName) = true := by
      rcases routerFileAfter_cases self placement entityName entityFileName readOnly fileText
        with ⟨hsame, hfound⟩ | hspliced
      · rw [hsame]
        rcases hfound hneedle with h | h
        · exact h
        · exact hpayload _ h
      · exact hpayload _ hspliced
    rw [addEntityToRouter_eq]
    simp [hguard]

set_option maxRecDepth 100000 in
/-- Witness of C4: after one call for the entity `Foo` on a router file that holds only the
needle, the second call builds no request. -/
theorem addEntityToRouter_idempotent_witness :
    singleLine "foo" = true
    ∧ includes "// jhipster-needle-add-entity-to-router" "jhipster-needle-add-entity-to-router"
      = true
    ∧ addEntityToRouter plainNeedle "Foo" "foo" false
        (routerFileAfter plainNeedle .before "Foo" "foo" false
          "// jhipster-needle-add-entity-to-router") = none :=
  ⟨by decide, by decide,
    (addEntityToRouter_idempotent plainNeedle .before "Foo" "foo" false
      "// jhipster-needle-add-entity-to-router").2.2 (by decide) (by decide)⟩

end NeedleClientVue
